import Mathlib

/-!
Verification development for the customer-analyzer ML-services repository.

The Python sources under `src/ml-services/src/` are shallowly embedded:
timestamps become `Int` seconds since the Unix epoch, Python floats become
`ℚ`, database rows become Lean structures, and the fallibility of the
extractors (a `try/except` that turns any per-user failure into `None`)
becomes `Option`.  Each feature-extraction module keeps its own copies of
its helper functions, mirroring the duplicated Python code in
`user_features.py`, `purchase_features.py` and `churn_features.py`.
-/

namespace CustomerAnalyzer

/-! ## Time primitives (semantics of the Python `datetime` operations used) -/

/-- Number of seconds in a day. -/
def secPerDay : Int := 86400

/-- `datetime.date()` of a timestamp: the epoch-day index (floor division,
matching calendar days for epoch-based timestamps). -/
def dateOf (t : Int) : Int := t.fdiv secPerDay

/-- `datetime.hour` of a timestamp, in `0..23`. -/
def hourOf (t : Int) : Int := (t.emod secPerDay).fdiv 3600

/-- `datetime.weekday()` of a timestamp: Monday = 0 .. Sunday = 6
(1970-01-01 was a Thursday, weekday 3). -/
def weekdayOf (t : Int) : Int := (t.fdiv secPerDay + 3).emod 7

/-- `(a - b).days` for two datetimes: `timedelta.days` floors
towards minus infinity. -/
def daysBetween (a b : Int) : Int := (a - b).fdiv secPerDay

/-- `datetime.month` of a timestamp, via the standard civil-from-days
conversion for the proleptic Gregorian calendar. -/
def monthOf (t : Int) : Int :=
  let z := dateOf t + 719468
  let era := z.fdiv 146097
  let doe := z - era * 146097
  let yoe := (doe - doe.fdiv 1460 + doe.fdiv 36524 - doe.fdiv 146096).fdiv 365
  let doy := doe - (365 * yoe + yoe.fdiv 4 - yoe.fdiv 100)
  let mp := (5 * doy + 2).fdiv 153
  mp + (if mp < 10 then 3 else -9)

/-! ## Data model (§3 of the spec; `app_schema.users` / `app_schema.events`) -/

/-- The `properties` JSON payload of an event.  `obj` is a payload that
parses, carrying the two keys the extractors read (`amount` for purchases,
`command` for bot commands); `mal` is a malformed payload on which
`json.loads` raises, which the extractors' `try/except` turns into `None`. -/
inductive Props
  | obj (amount : Option ℚ) (command : Option String)
  | mal
  deriving DecidableEq, Repr

/-- A row of `app_schema.events`. -/
structure Event where
  event_id : Int
  user_id : Int
  event_type : String
  event_timestamp : Int
  props : Props
  deriving DecidableEq, Repr

/-- A row of `app_schema.users` (with `language_code` already extracted
from `profile_data`, as `_get_user_info` does). -/
structure UserInfo where
  user_id : Int
  telegram_id : Int
  first_name : Option String
  last_name : Option String
  username : Option String
  registration_date : Int
  language_code : Option String
  deriving DecidableEq, Repr

/-- The database visible to the extractors. -/
structure DB where
  users : List UserInfo
  events : List Event
  deriving DecidableEq, Repr

/-- Stable insertion of an event into a timestamp-sorted list
(`ORDER BY event_timestamp`). -/
def insertByTs (e : Event) : List Event → List Event
  | [] => [e]
  | x :: xs => if e.event_timestamp ≤ x.event_timestamp then e :: x :: xs
               else x :: insertByTs e xs

/-- Stable sort of events by timestamp (`ORDER BY event_timestamp`). -/
def sortByTs : List Event → List Event
  | [] => []
  | e :: es => insertByTs e (sortByTs es)

/-- Sorted insertion for integers (`ORDER BY user_id`). -/
def insertInt (n : Int) : List Int → List Int
  | [] => [n]
  | x :: xs => if n ≤ x then n :: x :: xs else x :: insertInt n xs

/-- Ascending sort of integers. -/
def sortInts : List Int → List Int
  | [] => []
  | n :: ns => insertInt n (sortInts ns)

/-- `SELECT ... FROM app_schema.users WHERE user_id = %s`, first row. -/
def getUserInfo (db : DB) (uid : Int) : Option UserInfo :=
  (db.users.filter (fun u => u.user_id = uid)).head?

/-- `SELECT ... FROM app_schema.events WHERE user_id = %s
ORDER BY event_timestamp`. -/
def getUserEvents (db : DB) (uid : Int) : List Event :=
  sortByTs (db.events.filter (fun e => e.user_id = uid))

/-! ## `features/purchase_features.py` -/

namespace PF

/-- `PurchasePredictionFeatures` (purchase_features.py:14-83). -/
structure PurchasePredictionFeatures where
  user_id : Int
  telegram_id : Int
  days_since_registration : Int
  total_events : Nat
  unique_days_active : Nat
  events_last_7_days : Nat
  events_last_14_days : Nat
  events_last_30_days : Nat
  unique_days_active_last_7_days : Nat
  unique_days_active_last_14_days : Nat
  unique_days_active_last_30_days : Nat
  bot_commands_last_7_days : Nat
  bot_commands_last_14_days : Nat
  bot_commands_last_30_days : Nat
  messages_last_7_days : Nat
  messages_last_14_days : Nat
  messages_last_30_days : Nat
  callback_queries_last_7_days : Nat
  callback_queries_last_14_days : Nat
  callback_queries_last_30_days : Nat
  product_views_last_7_days : Nat
  product_views_last_14_days : Nat
  product_views_last_30_days : Nat
  cart_additions_last_7_days : Nat
  cart_additions_last_14_days : Nat
  cart_additions_last_30_days : Nat
  total_purchases : Nat
  purchases_last_7_days : Nat
  purchases_last_14_days : Nat
  purchases_last_30_days : Nat
  purchases_last_60_days : Nat
  purchases_last_90_days : Nat
  total_spent : ℚ
  avg_order_value : ℚ
  days_since_last_purchase : Int
  avg_session_duration_last_7_days : ℚ
  avg_session_duration_last_14_days : ℚ
  peak_hour : Int
  weekend_activity_ratio_last_7_days : ℚ
  weekend_activity_ratio_last_14_days : ℚ
  activity_trend_7d_vs_14d : ℚ
  activity_trend_14d_vs_30d : ℚ
  purchase_trend_30d_vs_60d : ℚ
  is_weekend : Bool
  hour_of_day : Int
  day_of_week : Int
  month : Int
  feature_extraction_date : Int
  prediction_horizon_days : Int

/-- `_calculate_days_since_registration` (purchase_features.py:273-275). -/
def calculateDaysSinceRegistration (registration_date prediction_date : Int) : Int :=
  daysBetween prediction_date registration_date

/-- Membership test for the window
`prediction_date - timedelta(days=days) ≤ ts ≤ prediction_date`. -/
def inWindow (prediction_date : Int) (days : Int) (e : Event) : Bool :=
  prediction_date - days * secPerDay ≤ e.event_timestamp &&
    e.event_timestamp ≤ prediction_date

/-- `_count_events_in_window` (purchase_features.py:277-281). -/
def countEventsInWindow (events : List Event) (prediction_date days : Int) : Nat :=
  events.countP (inWindow prediction_date days)

/-- `_count_unique_days_in_window` (purchase_features.py:283-290). -/
def countUniqueDaysInWindow (events : List Event) (prediction_date days : Int) : Nat :=
  (((events.filter (inWindow prediction_date days)).map
      (fun e => dateOf e.event_timestamp)).dedup).length

/-- `_count_events_by_type_in_window` (purchase_features.py:292-297). -/
def countEventsByTypeInWindow (events : List Event) (event_type : String)
    (prediction_date days : Int) : Nat :=
  events.countP (fun e => e.event_type = event_type && inWindow prediction_date days e)

/-- `_count_events_by_type` (purchase_features.py:299-301). -/
def countEventsByType (events : List Event) (event_type : String) : Nat :=
  events.countP (fun e => e.event_type = event_type)

/-- `_calculate_unique_days_active` (purchase_features.py:303-312). -/
def calculateUniqueDaysActive (events : List Event) : Nat :=
  ((events.map (fun e => dateOf e.event_timestamp)).dedup).length

/-- `_calculate_total_spent` (purchase_features.py:314-328); `none` models
the `json.loads` exception on a malformed `purchase` payload. -/
def calculateTotalSpent : List Event → Option ℚ
  | [] => some 0
  | e :: tl =>
    if e.event_type = "purchase" then
      match e.props with
      | .obj amount _ => (calculateTotalSpent tl).map (fun r => amount.getD 0 + r)
      | .mal => none
    else calculateTotalSpent tl

/-- `_calculate_avg_order_value` (purchase_features.py:330-337). -/
def calculateAvgOrderValue (events : List Event) : Option ℚ :=
  let purchases := events.filter (fun e => e.event_type = "purchase")
  if purchases.isEmpty then some 0
  else (calculateTotalSpent events).map (fun t => t / purchases.length)

/-- `_calculate_days_since_last_purchase` (purchase_features.py:339-346). -/
def calculateDaysSinceLastPurchase (events : List Event) (prediction_date : Int) : Int :=
  let purchases := events.filter (fun e => e.event_type = "purchase")
  match (purchases.map (fun e => e.event_timestamp)).max? with
  | none => 999
  | some t => daysBetween prediction_date t

/-- The session-grouping loop of `_calculate_avg_session_duration_in_window`
(purchase_features.py:357-372): sessions split at gaps > 1800 s, and a
session is kept only if it has more than one event. -/
def sessionLoopKeepLong (prev : Event) (current : List Event) :
    List Event → List (List Event)
  | [] => if current.length > 1 then [current] else []
  | e :: tl =>
    if e.event_timestamp - prev.event_timestamp ≤ 1800 then
      sessionLoopKeepLong e (current ++ [e]) tl
    else
      (if current.length > 1 then [current] else []) ++ sessionLoopKeepLong e [e] tl

/-- `_calculate_avg_session_duration_in_window` (purchase_features.py:348-383). -/
def calculateAvgSessionDurationInWindow (events : List Event)
    (prediction_date days : Int) : ℚ :=
  let window_events := events.filter (inWindow prediction_date days)
  match window_events with
  | [] => 0
  | [_] => 0
  | e :: tl =>
    let sessions := sessionLoopKeepLong e [e] tl
    if sessions.isEmpty then 0
    else
      let total_duration : ℚ := (sessions.map (fun s =>
        ((((s.getLast?).map Event.event_timestamp).getD 0 -
          ((s.head?).map Event.event_timestamp).getD 0 : Int) : ℚ))).sum
      total_duration / sessions.length

/-- One step of `hour_counts[hour] = hour_counts.get(hour, 0) + 1` on an
insertion-ordered dictionary (a key keeps its position; a new key is
appended). -/
def bumpHour (acc : List (Int × Nat)) (h : Int) : List (Int × Nat) :=
  if acc.any (fun p => p.1 = h) then
    acc.map (fun p => if p.1 = h then (p.1, p.2 + 1) else p)
  else acc ++ [(h, 1)]

/-- The insertion-ordered hour-count dictionary of `_calculate_peak_hour`
(purchase_features.py:390-393). -/
def hourCounts (events : List Event) : List (Int × Nat) :=
  events.foldl (fun acc e => bumpHour acc (hourOf e.event_timestamp)) []

/-- Python `max(items, key=lambda x: x[1])`: the first item attaining the
maximal value (ties keep the earlier item). -/
def pickFirstMax (l : List (Int × Nat)) : Option (Int × Nat) :=
  l.foldl (fun best p =>
    match best with
    | none => some p
    | some b => if p.2 > b.2 then some p else some b) none

/-- `_calculate_peak_hour` (purchase_features.py:385-395). -/
def calculatePeakHour (events : List Event) : Int :=
  if events.isEmpty then 12
  else
    match pickFirstMax (hourCounts events) with
    | some p => p.1
    | none => 12

/-- `_calculate_weekend_activity_ratio_in_window` (purchase_features.py:397-412). -/
def calculateWeekendActivityRatioInWindow (events : List Event)
    (prediction_date days : Int) : ℚ :=
  let window_events := events.filter (inWindow prediction_date days)
  if window_events.isEmpty then 0
  else
    (window_events.countP (fun e => weekdayOf e.event_timestamp ≥ 5) : ℚ) /
      window_events.length

/-- `_calculate_activity_trend` (purchase_features.py:414-422). -/
def calculateActivityTrend (events : List Event)
    (prediction_date short_window long_window : Int) : ℚ :=
  let short_count := countEventsInWindow events prediction_date short_window
  let long_count := countEventsInWindow events prediction_date long_window
  if long_count = 0 then 0 else (short_count : ℚ) / long_count

/-- `_calculate_purchase_trend` (purchase_features.py:424-432). -/
def calculatePurchaseTrend (events : List Event)
    (prediction_date short_window long_window : Int) : ℚ :=
  let short_count := countEventsByTypeInWindow events "purchase" prediction_date short_window
  let long_count := countEventsByTypeInWindow events "purchase" prediction_date long_window
  if long_count = 0 then 0 else (short_count : ℚ) / long_count

/-- The body of `extract_user_purchase_features` after the user row and the
event list have been fetched (purchase_features.py:108-178).  `none` models
the `except` branch (a malformed purchase payload). -/
def extractFromEvents (u : UserInfo) (events : List Event)
    (prediction_date : Int) : Option PurchasePredictionFeatures := do
  let total_spent ← calculateTotalSpent events
  let avg_order_value ← calculateAvgOrderValue events
  pure {
    user_id := u.user_id
    telegram_id := u.telegram_id
    days_since_registration :=
      calculateDaysSinceRegistration u.registration_date prediction_date
    total_events := events.length
    unique_days_active := calculateUniqueDaysActive events
    events_last_7_days := countEventsInWindow events prediction_date 7
    events_last_14_days := countEventsInWindow events prediction_date 14
    events_last_30_days := countEventsInWindow events prediction_date 30
    unique_days_active_last_7_days := countUniqueDaysInWindow events prediction_date 7
    unique_days_active_last_14_days := countUniqueDaysInWindow events prediction_date 14
    unique_days_active_last_30_days := countUniqueDaysInWindow events prediction_date 30
    bot_commands_last_7_days :=
      countEventsByTypeInWindow events "bot_command" prediction_date 7
    bot_commands_last_14_days :=
      countEventsByTypeInWindow events "bot_command" prediction_date 14
    bot_commands_last_30_days :=
      countEventsByTypeInWindow events "bot_command" prediction_date 30
    messages_last_7_days := countEventsByTypeInWindow events "message" prediction_date 7
    messages_last_14_days := countEventsByTypeInWindow events "message" prediction_date 14
    messages_last_30_days := countEventsByTypeInWindow events "message" prediction_date 30
    callback_queries_last_7_days :=
      countEventsByTypeInWindow events "callback_query" prediction_date 7
    callback_queries_last_14_days :=
      countEventsByTypeInWindow events "callback_query" prediction_date 14
    callback_queries_last_30_days :=
      countEventsByTypeInWindow events "callback_query" prediction_date 30
    product_views_last_7_days := countEventsByTypeInWindow events "view" prediction_date 7
    product_views_last_14_days := countEventsByTypeInWindow events "view" prediction_date 14
    product_views_last_30_days := countEventsByTypeInWindow events "view" prediction_date 30
    cart_additions_last_7_days :=
      countEventsByTypeInWindow events "add_to_cart" prediction_date 7
    cart_additions_last_14_days :=
      countEventsByTypeInWindow events "add_to_cart" prediction_date 14
    cart_additions_last_30_days :=
      countEventsByTypeInWindow events "add_to_cart" prediction_date 30
    total_purchases := countEventsByType events "purchase"
    purchases_last_7_days := countEventsByTypeInWindow events "purchase" prediction_date 7
    purchases_last_14_days := countEventsByTypeInWindow events "purchase" prediction_date 14
    purchases_last_30_days := countEventsByTypeInWindow events "purchase" prediction_date 30
    purchases_last_60_days := countEventsByTypeInWindow events "purchase" prediction_date 60
    purchases_last_90_days := countEventsByTypeInWindow events "purchase" prediction_date 90
    total_spent := total_spent
    avg_order_value := avg_order_value
    days_since_last_purchase := calculateDaysSinceLastPurchase events prediction_date
    avg_session_duration_last_7_days :=
      calculateAvgSessionDurationInWindow events prediction_date 7
    avg_session_duration_last_14_days :=
      calculateAvgSessionDurationInWindow events prediction_date 14
    peak_hour := calculatePeakHour events
    weekend_activity_ratio_last_7_days :=
      calculateWeekendActivityRatioInWindow events prediction_date 7
    weekend_activity_ratio_last_14_days :=
      calculateWeekendActivityRatioInWindow events prediction_date 14
    activity_trend_7d_vs_14d := calculateActivityTrend events prediction_date 7 14
    activity_trend_14d_vs_30d := calculateActivityTrend events prediction_date 14 30
    purchase_trend_30d_vs_60d := calculatePurchaseTrend events prediction_date 30 60
    is_weekend := weekdayOf prediction_date ≥ 5
    hour_of_day := hourOf prediction_date
    day_of_week := weekdayOf prediction_date
    month := monthOf prediction_date
    feature_extraction_date := prediction_date
    prediction_horizon_days := 30 }

/-- `extract_user_purchase_features` (purchase_features.py:93-182):
`None` when the user row does not exist, otherwise the extraction body run
on the user's full (untruncated) event history. -/
def extractUserPurchaseFeatures (db : DB) (uid : Int)
    (prediction_date : Int) : Option PurchasePredictionFeatures :=
  match getUserInfo db uid with
  | none => none
  | some u => extractFromEvents u (getUserEvents db uid) prediction_date

end PF

/-! ## `features/churn_features.py` -/

namespace CF

/-- `ChurnPredictionFeatures` (churn_features.py:14-99). -/
structure ChurnPredictionFeatures where
  user_id : Int
  telegram_id : Int
  days_since_registration : Int
  total_events : Nat
  unique_days_active : Nat
  events_last_7_days : Nat
  events_last_14_days : Nat
  events_last_30_days : Nat
  events_last_60_days : Nat
  unique_days_active_last_7_days : Nat
  unique_days_active_last_14_days : Nat
  unique_days_active_last_30_days : Nat
  unique_days_active_last_60_days : Nat
  activity_drop_7d_vs_14d : ℚ
  activity_drop_14d_vs_30d : ℚ
  activity_drop_30d_vs_60d : ℚ
  avg_days_between_sessions : ℚ
  max_days_between_sessions : Int
  days_since_last_activity : Int
  bot_commands_last_7_days : Nat
  bot_commands_last_14_days : Nat
  bot_commands_last_30_days : Nat
  messages_last_7_days : Nat
  messages_last_14_days : Nat
  messages_last_30_days : Nat
  callback_queries_last_7_days : Nat
  callback_queries_last_14_days : Nat
  callback_queries_last_30_days : Nat
  product_views_last_7_days : Nat
  product_views_last_14_days : Nat
  product_views_last_30_days : Nat
  cart_additions_last_7_days : Nat
  cart_additions_last_14_days : Nat
  cart_additions_last_30_days : Nat
  total_purchases : Nat
  purchases_last_7_days : Nat
  purchases_last_14_days : Nat
  purchases_last_30_days : Nat
  purchases_last_60_days : Nat
  total_spent : ℚ
  avg_order_value : ℚ
  days_since_last_purchase : Int
  avg_session_duration_last_7_days : ℚ
  avg_session_duration_last_14_days : ℚ
  avg_session_duration_last_30_days : ℚ
  session_count_last_7_days : Nat
  session_count_last_14_days : Nat
  session_count_last_30_days : Nat
  session_duration_trend : ℚ
  engagement_trend : ℚ
  purchase_trend : ℚ
  peak_hour : Int
  weekend_activity_ratio : ℚ
  weekday_activity_ratio : ℚ
  repeat_purchase_ratio : ℚ
  avg_days_between_purchases : ℚ
  customer_lifetime_value : ℚ
  feature_extraction_date : Int
  churn_definition_days : Int

/-- `_calculate_days_since_registration` (churn_features.py:305-307). -/
def calculateDaysSinceRegistration (registration_date prediction_date : Int) : Int :=
  daysBetween prediction_date registration_date

/-- The window predicate
`prediction_date - timedelta(days=days) ≤ ts ≤ prediction_date`. -/
def inWindow (prediction_date : Int) (days : Int) (e : Event) : Bool :=
  prediction_date - days * secPerDay ≤ e.event_timestamp &&
    e.event_timestamp ≤ prediction_date

/-- `_count_events_in_window` (churn_features.py:309-313). -/
def countEventsInWindow (events : List Event) (prediction_date days : Int) : Nat :=
  events.countP (inWindow prediction_date days)

/-- `_count_unique_days_in_window` (churn_features.py:315-322). -/
def countUniqueDaysInWindow (events : List Event) (prediction_date days : Int) : Nat :=
  (((events.filter (inWindow prediction_date days)).map
      (fun e => dateOf e.event_timestamp)).dedup).length

/-- `_count_events_by_type_in_window` (churn_features.py:324-329). -/
def countEventsByTypeInWindow (events : List Event) (event_type : String)
    (prediction_date days : Int) : Nat :=
  events.countP (fun e => e.event_type = event_type && inWindow prediction_date days e)

/-- `_count_events_by_type` (churn_features.py:331-333). -/
def countEventsByType (events : List Event) (event_type : String) : Nat :=
  events.countP (fun e => e.event_type = event_type)

/-- `_calculate_unique_days_active` (churn_features.py:335-344). -/
def calculateUniqueDaysActive (events : List Event) : Nat :=
  ((events.map (fun e => dateOf e.event_timestamp)).dedup).length

/-- `_calculate_activity_drop` (churn_features.py:346-358). -/
def calculateActivityDrop (events : List Event)
    (prediction_date short_window long_window : Int) : ℚ :=
  let short_count := countEventsInWindow events prediction_date short_window
  let long_count := countEventsInWindow events prediction_date long_window
  if long_count = 0 then 0
  else
    let short_normalized : ℚ := (short_count : ℚ) / (short_window : ℚ)
    let long_normalized : ℚ := (long_count : ℚ) / (long_window : ℚ)
    if long_normalized > 0 then 1 - short_normalized / long_normalized else 0

/-- The sorted distinct activity dates of an event list
(`sorted(set(event['event_timestamp'].date() for event in events))`). -/
def sortedActivityDays (events : List Event) : List Int :=
  sortInts ((events.map (fun e => dateOf e.event_timestamp)).dedup)

/-- Consecutive differences of a list of days. -/
def dayIntervals : List Int → List Int
  | [] => []
  | [_] => []
  | a :: b :: tl => (b - a) :: dayIntervals (b :: tl)

/-- `_calculate_avg_days_between_sessions` (churn_features.py:360-377). -/
def calculateAvgDaysBetweenSessions (events : List Event) : ℚ :=
  if events.length < 2 then 0
  else
    let days := sortedActivityDays events
    if days.length < 2 then 0
    else
      let intervals := dayIntervals days
      ((intervals.sum : Int) : ℚ) / intervals.length

/-- `_calculate_max_days_between_sessions` (churn_features.py:379-396). -/
def calculateMaxDaysBetweenSessions (events : List Event) : Int :=
  if events.length < 2 then 0
  else
    let days := sortedActivityDays events
    if days.length < 2 then 0
    else (dayIntervals days).foldl max 0

/-- `_calculate_days_since_last_activity` (churn_features.py:398-404). -/
def calculateDaysSinceLastActivity (events : List Event) (prediction_date : Int) : Int :=
  match (events.map (fun e => e.event_timestamp)).max? with
  | none => 999
  | some t => daysBetween prediction_date t

/-- `_calculate_total_spent` (churn_features.py:406-420). -/
def calculateTotalSpent : List Event → Option ℚ
  | [] => some 0
  | e :: tl =>
    if e.event_type = "purchase" then
      match e.props with
      | .obj amount _ => (calculateTotalSpent tl).map (fun r => amount.getD 0 + r)
      | .mal => none
    else calculateTotalSpent tl

/-- `_calculate_avg_order_value` (churn_features.py:422-429). -/
def calculateAvgOrderValue (events : List Event) : Option ℚ :=
  let purchases := events.filter (fun e => e.event_type = "purchase")
  if purchases.isEmpty then some 0
  else (calculateTotalSpent events).map (fun t => t / purchases.length)

/-- `_calculate_days_since_last_purchase` (churn_features.py:431-438). -/
def calculateDaysSinceLastPurchase (events : List Event) (prediction_date : Int) : Int :=
  let purchases := events.filter (fun e => e.event_type = "purchase")
  match (purchases.map (fun e => e.event_timestamp)).max? with
  | none => 999
  | some t => daysBetween prediction_date t

/-- The loop of `_group_events_into_sessions` (churn_features.py:481-494):
split at gaps > 1800 s, keeping every session including singletons. -/
def sessionLoop (prev : Event) (current : List Event) :
    List Event → List (List Event)
  | [] => [current]
  | e :: tl =>
    if e.event_timestamp - prev.event_timestamp ≤ 1800 then
      sessionLoop e (current ++ [e]) tl
    else current :: sessionLoop e [e] tl

/-- `_group_events_into_sessions` (churn_features.py:476-494). -/
def groupEventsIntoSessions : List Event → List (List Event)
  | [] => []
  | [e] => [[e]]
  | e :: tl => sessionLoop e [e] tl

/-- `_calculate_avg_session_duration_in_window` (churn_features.py:440-461). -/
def calculateAvgSessionDurationInWindow (events : List Event)
    (prediction_date days : Int) : ℚ :=
  let window_events := events.filter (inWindow prediction_date days)
  if window_events.length < 2 then 0
  else
    let sessions := groupEventsIntoSessions window_events
    if sessions.isEmpty then 0
    else
      let total_duration : ℚ := (sessions.map (fun s =>
        ((((s.getLast?).map Event.event_timestamp).getD 0 -
          ((s.head?).map Event.event_timestamp).getD 0 : Int) : ℚ))).sum
      total_duration / sessions.length

/-- `_count_sessions_in_window` (churn_features.py:463-474). -/
def countSessionsInWindow (events : List Event) (prediction_date days : Int) : Nat :=
  let window_events := events.filter (inWindow prediction_date days)
  if window_events.length < 2 then window_events.length
  else (groupEventsIntoSessions window_events).length

/-- `_calculate_session_duration_trend` (churn_features.py:496-504). -/
def calculateSessionDurationTrend (events : List Event) (prediction_date : Int) : ℚ :=
  let duration_7d := calculateAvgSessionDurationInWindow events prediction_date 7
  let duration_14d := calculateAvgSessionDurationInWindow events prediction_date 14
  if duration_14d = 0 then 0 else (duration_7d - duration_14d) / duration_14d

/-- `_calculate_engagement_trend` (churn_features.py:506-514). -/
def calculateEngagementTrend (events : List Event) (prediction_date : Int) : ℚ :=
  let events_7d := countEventsInWindow events prediction_date 7
  let events_14d := countEventsInWindow events prediction_date 14
  if events_14d = 0 then 0 else ((events_7d : ℚ) - events_14d) / events_14d

/-- `_calculate_purchase_trend` (churn_features.py:516-524). -/
def calculatePurchaseTrend (events : List Event) (prediction_date : Int) : ℚ :=
  let purchases_7d := countEventsByTypeInWindow events "purchase" prediction_date 7
  let purchases_14d := countEventsByTypeInWindow events "purchase" prediction_date 14
  if purchases_14d = 0 then 0 else ((purchases_7d : ℚ) - purchases_14d) / purchases_14d

/-- `_calculate_peak_hour` (churn_features.py:526-536). -/
def calculatePeakHour (events : List Event) : Int :=
  if events.isEmpty then 12
  else
    match PF.pickFirstMax (PF.hourCounts events) with
    | some p => p.1
    | none => 12

/-- `_calculate_weekend_activity_ratio` (churn_features.py:538-549). -/
def calculateWeekendActivityRatio (events : List Event) : ℚ :=
  if events.isEmpty then 0
  else (events.countP (fun e => weekdayOf e.event_timestamp ≥ 5) : ℚ) / events.length

/-- `_calculate_weekday_activity_ratio` (churn_features.py:551-553). -/
def calculateWeekdayActivityRatio (events : List Event) : ℚ :=
  1 - calculateWeekendActivityRatio events

/-- `_calculate_repeat_purchase_ratio` (churn_features.py:555-561). -/
def calculateRepeatPurchaseRatio (events : List Event) : ℚ :=
  let purchases := events.filter (fun e => e.event_type = "purchase")
  if purchases.length ≤ 1 then 0
  else ((purchases.length : ℚ) - 1) / purchases.length

/-- `_calculate_avg_days_between_purchases` (churn_features.py:563-577). -/
def calculateAvgDaysBetweenPurchases (events : List Event) : ℚ :=
  let purchases := events.filter (fun e => e.event_type = "purchase")
  if purchases.length < 2 then 999
  else
    let ts := sortInts (purchases.map (fun e => e.event_timestamp))
    let intervals := (dayIntervals ts).map (fun d => d.fdiv secPerDay)
    ((intervals.sum : Int) : ℚ) / intervals.length

/-- `_calculate_customer_lifetime_value` (churn_features.py:579-585). -/
def calculateCustomerLifetimeValue (events : List Event) : Option ℚ :=
  (calculateTotalSpent events).map (fun t => t + (events.length : ℚ) * (1 / 10))

/-- The body of `extract_user_churn_features` after the user row and the
event list have been fetched (churn_features.py:124-210). -/
def extractFromEvents (u : UserInfo) (events : List Event)
    (prediction_date : Int) : Option ChurnPredictionFeatures := do
  let total_spent ← calculateTotalSpent events
  let avg_order_value ← calculateAvgOrderValue events
  let customer_lifetime_value ← calculateCustomerLifetimeValue events
  pure {
    user_id := u.user_id
    telegram_id := u.telegram_id
    days_since_registration :=
      calculateDaysSinceRegistration u.registration_date prediction_date
    total_events := events.length
    unique_days_active := calculateUniqueDaysActive events
    events_last_7_days := countEventsInWindow events prediction_date 7
    events_last_14_days := countEventsInWindow events prediction_date 14
    events_last_30_days := countEventsInWindow events prediction_date 30
    events_last_60_days := countEventsInWindow events prediction_date 60
    unique_days_active_last_7_days := countUniqueDaysInWindow events prediction_date 7
    unique_days_active_last_14_days := countUniqueDaysInWindow events prediction_date 14
    unique_days_active_last_30_days := countUniqueDaysInWindow events prediction_date 30
    unique_days_active_last_60_days := countUniqueDaysInWindow events prediction_date 60
    activity_drop_7d_vs_14d := calculateActivityDrop events prediction_date 7 14
    activity_drop_14d_vs_30d := calculateActivityDrop events prediction_date 14 30
    activity_drop_30d_vs_60d := calculateActivityDrop events prediction_date 30 60
    avg_days_between_sessions := calculateAvgDaysBetweenSessions events
    max_days_between_sessions := calculateMaxDaysBetweenSessions events
    days_since_last_activity := calculateDaysSinceLastActivity events prediction_date
    bot_commands_last_7_days :=
      countEventsByTypeInWindow events "bot_command" prediction_date 7
    bot_commands_last_14_days :=
      countEventsByTypeInWindow events "bot_command" prediction_date 14
    bot_commands_last_30_days :=
      countEventsByTypeInWindow events "bot_command" prediction_date 30
    messages_last_7_days := countEventsByTypeInWindow events "message" prediction_date 7
    messages_last_14_days := countEventsByTypeInWindow events "message" prediction_date 14
    messages_last_30_days := countEventsByTypeInWindow events "message" prediction_date 30
    callback_queries_last_7_days :=
      countEventsByTypeInWindow events "callback_query" prediction_date 7
    callback_queries_last_14_days :=
      countEventsByTypeInWindow events "callback_query" prediction_date 14
    callback_queries_last_30_days :=
      countEventsByTypeInWindow events "callback_query" prediction_date 30
    product_views_last_7_days := countEventsByTypeInWindow events "view" prediction_date 7
    product_views_last_14_days := countEventsByTypeInWindow events "view" prediction_date 14
    product_views_last_30_days := countEventsByTypeInWindow events "view" prediction_date 30
    cart_additions_last_7_days :=
      countEventsByTypeInWindow events "add_to_cart" prediction_date 7
    cart_additions_last_14_days :=
      countEventsByTypeInWindow events "add_to_cart" prediction_date 14
    cart_additions_last_30_days :=
      countEventsByTypeInWindow events "add_to_cart" prediction_date 30
    total_purchases := countEventsByType events "purchase"
    purchases_last_7_days := countEventsByTypeInWindow events "purchase" prediction_date 7
    purchases_last_14_days := countEventsByTypeInWindow events "purchase" prediction_date 14
    purchases_last_30_days := countEventsByTypeInWindow events "purchase" prediction_date 30
    purchases_last_60_days := countEventsByTypeInWindow events "purchase" prediction_date 60
    total_spent := total_spent
    avg_order_value := avg_order_value
    days_since_last_purchase := calculateDaysSinceLastPurchase events prediction_date
    avg_session_duration_last_7_days :=
      calculateAvgSessionDurationInWindow events prediction_date 7
    avg_session_duration_last_14_days :=
      calculateAvgSessionDurationInWindow events prediction_date 14
    avg_session_duration_last_30_days :=
      calculateAvgSessionDurationInWindow events prediction_date 30
    session_count_last_7_days := countSessionsInWindow events prediction_date 7
    session_count_last_14_days := countSessionsInWindow events prediction_date 14
    session_count_last_30_days := countSessionsInWindow events prediction_date 30
    session_duration_trend := calculateSessionDurationTrend events prediction_date
    engagement_trend := calculateEngagementTrend events prediction_date
    purchase_trend := calculatePurchaseTrend events prediction_date
    peak_hour := calculatePeakHour events
    weekend_activity_ratio := calculateWeekendActivityRatio events
    weekday_activity_ratio := calculateWeekdayActivityRatio events
    repeat_purchase_ratio := calculateRepeatPurchaseRatio events
    avg_days_between_purchases := calculateAvgDaysBetweenPurchases events
    customer_lifetime_value := customer_lifetime_value
    feature_extraction_date := prediction_date
    churn_definition_days := 30 }

/-- `extract_user_churn_features` (churn_features.py:109-214). -/
def extractUserChurnFeatures (db : DB) (uid : Int)
    (prediction_date : Int) : Option ChurnPredictionFeatures :=
  match getUserInfo db uid with
  | none => none
  | some u => extractFromEvents u (getUserEvents db uid) prediction_date

end CF

/-! ## `features/user_features.py` -/

namespace UF

/-- `UserFeatures` (user_features.py:14-53). -/
structure UserFeatures where
  user_id : Int
  telegram_id : Int
  days_since_registration : Int
  has_username : Bool
  has_last_name : Bool
  language_code : Option String
  total_events : Nat
  unique_days_active : Nat
  avg_events_per_day : ℚ
  days_since_last_activity : Int
  bot_commands_count : Nat
  messages_count : Nat
  callback_queries_count : Nat
  unique_commands_count : Nat
  avg_session_duration : ℚ
  peak_hour : Int
  weekend_activity_ratio : ℚ
  purchase_count : Nat
  total_spent : ℚ
  avg_order_value : ℚ
  product_views_count : Nat
  cart_additions_count : Nat
  feature_extraction_date : Int

/-- `_calculate_days_since_registration` (user_features.py:204-206); this
extractor uses the wall clock `datetime.now()`, passed here as `now`. -/
def calculateDaysSinceRegistration (registration_date now : Int) : Int :=
  daysBetween now registration_date

/-- `_calculate_unique_days_active` (user_features.py:208-218). -/
def calculateUniqueDaysActive (events : List Event) : Nat :=
  ((events.map (fun e => dateOf e.event_timestamp)).dedup).length

/-- `_calculate_avg_events_per_day` (user_features.py:220-229). -/
def calculateAvgEventsPerDay (events : List Event) (registration_date now : Int) : ℚ :=
  if events.isEmpty then 0
  else
    let total_days := daysBetween now registration_date
    if total_days = 0 then (events.length : ℚ)
    else (events.length : ℚ) / (total_days : ℚ)

/-- `_calculate_days_since_last_activity` (user_features.py:231-237):
note that unlike the churn extractor this returns `0`, not `999`,
for a user with no events. -/
def calculateDaysSinceLastActivity (events : List Event) (now : Int) : Int :=
  match (events.map (fun e => e.event_timestamp)).max? with
  | none => 0
  | some t => daysBetween now t

/-- `_count_event_type` (user_features.py:239-241). -/
def countEventType (events : List Event) (event_type : String) : Nat :=
  events.countP (fun e => e.event_type = event_type)

/-- The command-collecting loop of `_count_unique_commands`
(user_features.py:243-257); `none` models the `json.loads` exception on a
malformed `bot_command` payload.  A missing or empty (falsy) command is
skipped. -/
def collectCommands : List Event → Option (List String)
  | [] => some []
  | e :: tl =>
    if e.event_type = "bot_command" then
      match e.props with
      | .obj _ command =>
        (collectCommands tl).map (fun cs =>
          match command with
          | some c => if c = "" then cs else c :: cs
          | none => cs)
      | .mal => none
    else collectCommands tl

/-- `_count_unique_commands` (user_features.py:243-257): the cardinality of
the set of commands seen. -/
def countUniqueCommands (events : List Event) : Option Nat :=
  (collectCommands events).map (fun cs => cs.dedup.length)

/-- `_calculate_avg_session_duration` (user_features.py:259-290): the same
session grouping as the purchase extractor, keeping only sessions with
more than one event. -/
def calculateAvgSessionDuration (events : List Event) : ℚ :=
  match events with
  | [] => 0
  | [_] => 0
  | e :: tl =>
    let sessions := PF.sessionLoopKeepLong e [e] tl
    if sessions.isEmpty then 0
    else
      let total_duration : ℚ := (sessions.map (fun s =>
        ((((s.getLast?).map Event.event_timestamp).getD 0 -
          ((s.head?).map Event.event_timestamp).getD 0 : Int) : ℚ))).sum
      total_duration / sessions.length

/-- `_calculate_peak_hour` (user_features.py:292-302). -/
def calculatePeakHour (events : List Event) : Int :=
  if events.isEmpty then 12
  else
    match PF.pickFirstMax (PF.hourCounts events) with
    | some p => p.1
    | none => 12

/-- `_calculate_weekend_activity_ratio` (user_features.py:304-315). -/
def calculateWeekendActivityRatio (events : List Event) : ℚ :=
  if events.isEmpty then 0
  else (events.countP (fun e => weekdayOf e.event_timestamp ≥ 5) : ℚ) / events.length

/-- `_calculate_total_spent` (user_features.py:317-331). -/
def calculateTotalSpent : List Event → Option ℚ
  | [] => some 0
  | e :: tl =>
    if e.event_type = "purchase" then
      match e.props with
      | .obj amount _ => (calculateTotalSpent tl).map (fun r => amount.getD 0 + r)
      | .mal => none
    else calculateTotalSpent tl

/-- `_calculate_avg_order_value` (user_features.py:333-340). -/
def calculateAvgOrderValue (events : List Event) : Option ℚ :=
  let purchases := events.filter (fun e => e.event_type = "purchase")
  if purchases.isEmpty then some 0
  else (calculateTotalSpent events).map (fun t => t / purchases.length)

/-- Python truthiness of an optional string (`bool(value)`): `NULL` and
the empty string are falsy. -/
def truthyStr : Option String → Bool
  | none => false
  | some s => s ≠ ""

/-- The body of `extract_user_features` after the user row and the event
list have been fetched (user_features.py:74-112). -/
def extractFromEvents (u : UserInfo) (events : List Event)
    (now : Int) : Option UserFeatures := do
  let unique_commands_count ← countUniqueCommands events
  let total_spent ← calculateTotalSpent events
  let avg_order_value ← calculateAvgOrderValue events
  pure {
    user_id := u.user_id
    telegram_id := u.telegram_id
    days_since_registration := calculateDaysSinceRegistration u.registration_date now
    has_username := truthyStr u.username
    has_last_name := truthyStr u.last_name
    language_code := u.language_code
    total_events := events.length
    unique_days_active := calculateUniqueDaysActive events
    avg_events_per_day := calculateAvgEventsPerDay events u.registration_date now
    days_since_last_activity := calculateDaysSinceLastActivity events now
    bot_commands_count := countEventType events "bot_command"
    messages_count := countEventType events "message"
    callback_queries_count := countEventType events "callback_query"
    unique_commands_count := unique_commands_count
    avg_session_duration := calculateAvgSessionDuration events
    peak_hour := calculatePeakHour events
    weekend_activity_ratio := calculateWeekendActivityRatio events
    purchase_count := countEventType events "purchase"
    total_spent := total_spent
    avg_order_value := avg_order_value
    product_views_count := countEventType events "view"
    cart_additions_count := countEventType events "add_to_cart"
    feature_extraction_date := now }

/-- `extract_user_features` (user_features.py:62-118). -/
def extractUserFeatures (db : DB) (now : Int) (uid : Int) : Option UserFeatures :=
  match getUserInfo db uid with
  | none => none
  | some u => extractFromEvents u (getUserEvents db uid) now

/-- `LIMIT` clause applied to a query result. -/
def applyLimit (l : List Int) : Option Nat → List Int
  | none => l
  | some n => l.take n

/-- `_get_all_users` (user_features.py:191-202):
`SELECT user_id FROM app_schema.users ORDER BY user_id`. -/
def getAllUsers (db : DB) (limit : Option Nat) : List Int :=
  applyLimit (sortInts (db.users.map (fun u => u.user_id))) limit

/-- `extract_all_users_features` (user_features.py:120-137): the loop
appends a user's features only when extraction returned something. -/
def extractAllUsersFeatures (db : DB) (now : Int) (limit : Option Nat) :
    List UserFeatures :=
  (getAllUsers db limit).filterMap (extractUserFeatures db now)

end UF

/-! ## Training-set extraction (purchase_features.py:184-210, 253-271,
434-462) -/

namespace PF

/-- A `PurchasePredictionFeatures` with the target attributes that
`_add_target_variable` attaches (purchase_features.py:452-454). -/
structure LabeledPurchaseFeatures where
  features : PurchasePredictionFeatures
  will_purchase_in_30d : Bool
  purchase_count_in_30d : Nat

/-- `_add_target_variable` (purchase_features.py:434-462): counts the
user's `purchase` events in `(prediction_date, prediction_date + 30 days]`. -/
def addTargetVariable (db : DB) (uid : Int) (prediction_date : Int)
    (features : PurchasePredictionFeatures) : LabeledPurchaseFeatures :=
  let purchase_count := db.events.countP (fun e =>
    e.user_id = uid && e.event_type = "purchase" &&
      prediction_date < e.event_timestamp &&
      e.event_timestamp ≤ prediction_date + 30 * secPerDay)
  { features := features
    will_purchase_in_30d := purchase_count > 0
    purchase_count_in_30d := purchase_count }

/-- `_get_users_for_training` (purchase_features.py:253-271): the distinct
user ids having an event in `[start_date, end_date]`, ordered by user id. -/
def getUsersForTraining (db : DB) (start_date end_date : Int)
    (limit : Option Nat) : List Int :=
  UF.applyLimit
    (sortInts (((db.users.filter (fun u => db.events.any (fun e =>
        e.user_id = u.user_id && start_date ≤ e.event_timestamp &&
          e.event_timestamp ≤ end_date))).map (fun u => u.user_id)).dedup))
    limit

/-- The days visited by `while current_date <= end_date: ...;
current_date += timedelta(days=1)` (purchase_features.py:195-203). -/
def dayIterate (current finish : Int) : List Int :=
  if h : current ≤ finish then current :: dayIterate (current + 86400) finish
  else []
termination_by (finish + 86400 - current).toNat
decreasing_by omega

/-- The per-user inner loop of `extract_training_data`
(purchase_features.py:194-203): one labeled record per day on which the
extraction succeeded. -/
def perUserTrainingRows (db : DB) (uid : Int) (start_date end_date : Int) :
    List LabeledPurchaseFeatures :=
  (dayIterate start_date end_date).filterMap (fun d =>
    (extractUserPurchaseFeatures db uid d).map (addTargetVariable db uid d))

/-- `extract_training_data` (purchase_features.py:184-210). -/
def extractTrainingData (db : DB) (start_date end_date : Int)
    (limit : Option Nat) : List LabeledPurchaseFeatures :=
  (getUsersForTraining db start_date end_date limit).flatMap (fun uid =>
    perUserTrainingRows db uid start_date end_date)

end PF

/-! ## `scheduler/model_retraining.py` and `scheduler/prediction_updater.py` -/

namespace Sched

/-- A configuration value (the JSON scalar types used by the configs). -/
inductive CVal
  | str (s : String)
  | int (n : Int)
  | bool (b : Bool)
  deriving DecidableEq, Repr

/-- Python truthiness of a configuration value. -/
def truthy : CVal → Bool
  | .str s => s ≠ ""
  | .int n => n ≠ 0
  | .bool b => b

/-- The string payload of a value, if it is a string (`.at(...)` raises on
anything else). -/
def getStr : CVal → Option String
  | .str s => some s
  | _ => none

/-- One section of the nested retraining config (a Python sub-dict). -/
abbrev SubConfig : Type := List (String × CVal)

/-- The nested retraining config (a Python dict of sub-dicts). -/
abbrev Config : Type := List (String × SubConfig)

/-- Python `dict.update`: top-level keys present in `upd` have their value
replaced wholesale (keeping their position); new keys are appended. -/
def dictUpdate {α : Type} (base upd : List (String × α)) : List (String × α) :=
  base.map (fun p =>
    match upd.lookup p.1 with
    | some v => (p.1, v)
    | none => p) ++
  upd.filter (fun q => (base.lookup q.1).isNone)

/-- `self.retraining_config` as initialised in `__init__`
(model_retraining.py:30-41). -/
def defaultRetrainingConfig : Config :=
  [("segmentation",
    [("enabled", .bool true),
     ("schedule", .str "daily"),
     ("time", .str "02:00"),
     ("day_of_week", .int 1),
     ("day_of_month", .int 1),
     ("min_users_for_retraining", .int 100),
     ("auto_optimize_params", .bool true),
     ("backup_previous_model", .bool true)])]

/-- A job registered with the `schedule` library. -/
inductive Job
  | dailyAt (time : String)
  | weeklyAt (time : String)
  | monthly
  | hourly
  | weekly
  deriving DecidableEq, Repr

/-- `_setup_schedule` (model_retraining.py:76-104) after `schedule.clear()`:
the list of jobs registered from a config, or `none` when a required key is
missing or ill-typed (`KeyError`/`TypeError` escaping after the clear). -/
def setupSchedule (cfg : Config) : Option (List Job) := do
  let seg ← cfg.lookup "segmentation"
  let enabled ← seg.lookup "enabled"
  if truthy enabled then
    let schedule_type ← seg.lookup "schedule"
    if schedule_type = .str "daily" then
      let t ← seg.lookup "time"
      let ts ← getStr t
      pure [.dailyAt ts]
    else if schedule_type = .str "weekly" then
      let _day_of_week ← seg.lookup "day_of_week"
      let t ← seg.lookup "time"
      let ts ← getStr t
      pure [.weeklyAt ts]
    else if schedule_type = .str "monthly" then
      let _day_of_month ← seg.lookup "day_of_month"
      pure [.monthly]
    else if schedule_type = .str "custom" then
      pure [.dailyAt "02:00"]
    else pure []
  else pure []

/-- The observable state of a `ModelRetrainingScheduler`: its config, the
jobs currently registered with `schedule`, the running flag, and the number
of background loops spawned so far. -/
structure SchedulerState where
  retraining_config : Config
  jobs : List Job
  is_running : Bool
  threads : Nat
  deriving DecidableEq

/-- The scheduler as constructed by `__init__` (model_retraining.py:22-41). -/
def initialSchedulerState : SchedulerState :=
  { retraining_config := defaultRetrainingConfig
    jobs := []
    is_running := false
    threads := 0 }

/-- `start` (model_retraining.py:43-53): a no-op (with a warning) when
already running; otherwise sets the flag and spawns the background loop,
whose first action is `_setup_schedule` (clear + re-register). -/
def start (s : SchedulerState) : SchedulerState :=
  if s.is_running then s
  else
    { s with
      is_running := true
      threads := s.threads + 1
      jobs := (setupSchedule s.retraining_config).getD [] }

/-- `update_retraining_config` (model_retraining.py:223-230):
`dict.update` into the live config, then `_setup_schedule` from scratch.
If the rebuild raises after the clear, the `except` swallows it, leaving no
jobs registered. -/
def updateRetrainingConfig (s : SchedulerState) (config : Config) : SchedulerState :=
  let cfg := dictUpdate s.retraining_config config
  { s with
    retraining_config := cfg
    jobs := (setupSchedule cfg).getD [] }

/-- `self.update_config` as initialised in `PredictionUpdater.__init__`
(prediction_updater.py:30-38). -/
def defaultUpdateConfig : List (String × CVal) :=
  [("enabled", .bool true),
   ("schedule", .str "daily"),
   ("time", .str "03:00"),
   ("batch_size", .int 1000),
   ("update_threshold_days", .int 1),
   ("max_users_per_update", .int 10000),
   ("backup_predictions", .bool true)]

/-- `PredictionUpdater._setup_schedule` (prediction_updater.py:73-87). -/
def setupUpdaterSchedule (cfg : List (String × CVal)) : Option (List Job) := do
  let enabled ← cfg.lookup "enabled"
  if truthy enabled then
    let schedule_type ← cfg.lookup "schedule"
    if schedule_type = .str "daily" then
      let t ← cfg.lookup "time"
      let ts ← getStr t
      pure [.dailyAt ts]
    else if schedule_type = .str "hourly" then
      pure [.hourly]
    else if schedule_type = .str "weekly" then
      pure [.weekly]
    else pure []
  else pure []

/-- The observable state of a `PredictionUpdater`. -/
structure UpdaterState where
  update_config : List (String × CVal)
  jobs : List Job
  is_running : Bool
  threads : Nat
  deriving DecidableEq

/-- The updater as constructed by `__init__` (prediction_updater.py:22-38). -/
def initialUpdaterState : UpdaterState :=
  { update_config := defaultUpdateConfig
    jobs := []
    is_running := false
    threads := 0 }

/-- `PredictionUpdater.start` (prediction_updater.py:40-50). -/
def startUpdater (s : UpdaterState) : UpdaterState :=
  if s.is_running then s
  else
    { s with
      is_running := true
      threads := s.threads + 1
      jobs := (setupUpdaterSchedule s.update_config).getD [] }

end Sched

/-! ## The ML-readiness transforms (`prepare_features_for_ml`,
`prepare_purchase_features_for_ml`, `prepare_churn_features_for_ml`) -/

namespace DFrame

/-- A cell of a feature table.  `np.log1p` is kept symbolic: the transforms
are about which columns are rewritten, not about real-number arithmetic. -/
inductive Val
  | num (q : ℚ)
  | nan
  | str (s : String)
  | boolv (b : Bool)
  | log1p (v : Val)
  deriving DecidableEq, Repr

/-- A feature table: named columns in order, one list of cells each. -/
abbrev DF : Type := List (String × List Val)

/-- `ml_df[name] = ml_df[name].map(f)`: rewrite one column cell-wise. -/
def mapCol (name : String) (f : Val → Val) (df : DF) : DF :=
  df.map (fun p => if p.1 = name then (p.1, p.2.map f) else p)

/-- `.fillna(0)` on one cell. -/
def fillna0 : Val → Val
  | .nan => .num 0
  | v => v

/-- `.astype(int)` on a boolean cell. -/
def boolToInt : Val → Val
  | .boolv b => .num (if b then 1 else 0)
  | v => v

/-- `.replace(999, 365)` on one cell. -/
def replace999 (v : Val) : Val :=
  if v = .num 999 then .num 365 else v

/-- `ml_df[features] = ml_df[features].fillna(0)` column by column. -/
def fillnaCols (names : List String) (df : DF) : DF :=
  names.foldl (fun d n => mapCol n fillna0 d) df

/-- `for feature in skewed_features: ml_df[feature] = np.log1p(ml_df[feature])`. -/
def log1pCols (names : List String) (df : DF) : DF :=
  names.foldl (fun d n => mapCol n Val.log1p d) df

/-- The string payload of a cell, if any. -/
def getStrVal : Val → Option String
  | .str s => some s
  | _ => none

/-- `pd.get_dummies(ml_df['language_code'], prefix='lang')`
(user_features.py:384): one 0/1 column per distinct category present. -/
def langDummies (df : DF) : DF :=
  match df.lookup "language_code" with
  | none => []
  | some col =>
    ((col.filterMap getStrVal).dedup).map (fun c =>
      ("lang_" ++ c, col.map (fun v => Val.num (if v = .str c then 1 else 0))))

/-- The `numerical_features` list of `prepare_features_for_ml`
(user_features.py:391-409). -/
def userNumericalFeatures : List String :=
  ["days_since_registration", "total_events", "unique_days_active",
   "avg_events_per_day", "days_since_last_activity", "bot_commands_count",
   "messages_count", "callback_queries_count", "unique_commands_count",
   "avg_session_duration", "peak_hour", "weekend_activity_ratio",
   "purchase_count", "total_spent", "avg_order_value",
   "product_views_count", "cart_additions_count"]

/-- `prepare_features_for_ml` (user_features.py:374-419). -/
def prepareFeaturesForMl (df : DF) : DF :=
  let ml1 := mapCol "has_username" boolToInt df
  let ml2 := mapCol "has_last_name" boolToInt ml1
  let ml3 := ml2 ++ langDummies ml2
  let ml4 := ml3.filter (fun p => p.1 ≠ "language_code")
  let ml5 := fillnaCols userNumericalFeatures ml4
  log1pCols ["total_events", "total_spent", "avg_order_value"] ml5

/-- The `numerical_features` list of `prepare_purchase_features_for_ml`
(purchase_features.py:532-577). -/
def purchaseNumericalFeatures : List String :=
  ["days_since_registration", "total_events", "unique_days_active",
   "events_last_7_days", "events_last_14_days", "events_last_30_days",
   "unique_days_active_last_7_days", "unique_days_active_last_14_days",
   "unique_days_active_last_30_days", "bot_commands_last_7_days",
   "bot_commands_last_14_days", "bot_commands_last_30_days",
   "messages_last_7_days", "messages_last_14_days", "messages_last_30_days",
   "callback_queries_last_7_days", "callback_queries_last_14_days",
   "callback_queries_last_30_days", "product_views_last_7_days",
   "product_views_last_14_days", "product_views_last_30_days",
   "cart_additions_last_7_days", "cart_additions_last_14_days",
   "cart_additions_last_30_days", "total_purchases", "purchases_last_7_days",
   "purchases_last_14_days", "purchases_last_30_days", "purchases_last_60_days",
   "purchases_last_90_days", "total_spent", "avg_order_value",
   "days_since_last_purchase", "avg_session_duration_last_7_days",
   "avg_session_duration_last_14_days", "peak_hour",
   "weekend_activity_ratio_last_7_days", "weekend_activity_ratio_last_14_days",
   "activity_trend_7d_vs_14d", "activity_trend_14d_vs_30d",
   "purchase_trend_30d_vs_60d", "hour_of_day", "day_of_week", "month"]

/-- `prepare_purchase_features_for_ml` (purchase_features.py:523-590). -/
def preparePurchaseFeaturesForMl (df : DF) : DF :=
  let ml1 := mapCol "is_weekend" boolToInt df
  let ml2 := fillnaCols purchaseNumericalFeatures ml1
  let ml3 := log1pCols ["total_events", "total_spent", "avg_order_value"] ml2
  mapCol "days_since_last_purchase" replace999 ml3

/-- The `numerical_features` list of `prepare_churn_features_for_ml`
(churn_features.py:688-744). -/
def churnNumericalFeatures : List String :=
  ["days_since_registration", "total_events", "unique_days_active",
   "events_last_7_days", "events_last_14_days", "events_last_30_days",
   "events_last_60_days", "unique_days_active_last_7_days",
   "unique_days_active_last_14_days", "unique_days_active_last_30_days",
   "unique_days_active_last_60_days", "activity_drop_7d_vs_14d",
   "activity_drop_14d_vs_30d", "activity_drop_30d_vs_60d",
   "avg_days_between_sessions", "max_days_between_sessions",
   "days_since_last_activity", "bot_commands_last_7_days",
   "bot_commands_last_14_days", "bot_commands_last_30_days",
   "messages_last_7_days", "messages_last_14_days", "messages_last_30_days",
   "callback_queries_last_7_days", "callback_queries_last_14_days",
   "callback_queries_last_30_days", "product_views_last_7_days",
   "product_views_last_14_days", "product_views_last_30_days",
   "cart_additions_last_7_days", "cart_additions_last_14_days",
   "cart_additions_last_30_days", "total_purchases", "purchases_last_7_days",
   "purchases_last_14_days", "purchases_last_30_days", "purchases_last_60_days",
   "total_spent", "avg_order_value", "days_since_last_purchase",
   "avg_session_duration_last_7_days", "avg_session_duration_last_14_days",
   "avg_session_duration_last_30_days", "session_count_last_7_days",
   "session_count_last_14_days", "session_count_last_30_days",
   "session_duration_trend", "engagement_trend", "purchase_trend",
   "peak_hour", "weekend_activity_ratio", "weekday_activity_ratio",
   "repeat_purchase_ratio", "avg_days_between_purchases",
   "customer_lifetime_value"]

/-- `prepare_churn_features_for_ml` (churn_features.py:682-759). -/
def prepareChurnFeaturesForMl (df : DF) : DF :=
  let ml1 := fillnaCols churnNumericalFeatures df
  let ml2 := mapCol "days_since_last_activity" replace999 ml1
  let ml3 := mapCol "days_since_last_purchase" replace999 ml2
  let ml4 := mapCol "avg_days_between_purchases" replace999 ml3
  log1pCols ["total_events", "total_spent", "customer_lifetime_value"] ml4

end DFrame

/-! ## Claim-side definitions and concrete example inputs -/

/-- From the claims: the event list truncated to events with
`timestamp ≤ prediction_date`. -/
def eventsNotAfter (events : List Event) (prediction_date : Int) : List Event :=
  events.filter (fun e => e.event_timestamp ≤ prediction_date)

namespace CF

/-- The number of adjacent pairs of a trace whose gap exceeds 1800 s. -/
def gapSplits : List Event → Nat
  | [] => 0
  | [_] => 0
  | a :: b :: tl =>
    (if 1800 < b.event_timestamp - a.event_timestamp then 1 else 0) + gapSplits (b :: tl)

/-- From the spec's session definition: the number of maximal runs with
consecutive gaps ≤ 1800 s of a time-ordered trace — one more than the
number of adjacent gaps exceeding 1800 s, and 0 for the empty trace. -/
def maximalRunCount : List Event → Nat
  | [] => 0
  | es => 1 + gapSplits es

end CF

/-- `Val` column predicate: no `NaN` cell. -/
abbrev DFrame.noNanCol (c : List DFrame.Val) : Prop :=
  ∀ v ∈ c, v ≠ DFrame.Val.nan

/-- A sample user row. -/
def exUser : UserInfo :=
  { user_id := 1, telegram_id := 100, first_name := none, last_name := none,
    username := none, registration_date := 0, language_code := none }

/-- A single `view` event of user 1 on day 12 (after the day-10
prediction date used in the two-run counterexample). -/
def c1Events : List Event :=
  [{ event_id := 1, user_id := 1, event_type := "view",
     event_timestamp := 12 * 86400, props := .obj none none }]

/-- The prediction date (day 10) of the two-run counterexample. -/
def c1Pd : Int := 10 * 86400

/-- Three events of one user within a single 30-minute idle-gap chain
(gaps of 600 s). -/
def chainEvents : List Event :=
  [{ event_id := 1, user_id := 1, event_type := "view", event_timestamp := 0,
     props := .obj none none },
   { event_id := 2, user_id := 1, event_type := "message", event_timestamp := 600,
     props := .obj none none },
   { event_id := 3, user_id := 1, event_type := "view", event_timestamp := 1200,
     props := .obj none none }]

/-- The same chain with a 2400 s gap (> 1800 s) introduced before the last
event. -/
def gapEvents : List Event :=
  [{ event_id := 1, user_id := 1, event_type := "view", event_timestamp := 0,
     props := .obj none none },
   { event_id := 2, user_id := 1, event_type := "message", event_timestamp := 600,
     props := .obj none none },
   { event_id := 3, user_id := 1, event_type := "view", event_timestamp := 3000,
     props := .obj none none }]

/-- A database with one user (id 1) and a single `view` event at the epoch:
a user active in any window containing the epoch. -/
def trainDb : DB :=
  { users := [exUser]
    events := [{ event_id := 1, user_id := 1, event_type := "view",
                 event_timestamp := 0, props := .obj none none }] }

/-- A database with three users where user 2 has a `bot_command` event whose
`properties` payload is malformed JSON, so feature extraction for user 2
fails while users 1 and 3 extract normally. -/
def batchDb : DB :=
  { users := [exUser,
              { user_id := 2, telegram_id := 200, first_name := none,
                last_name := none, username := none, registration_date := 0,
                language_code := none },
              { user_id := 3, telegram_id := 300, first_name := none,
                last_name := none, username := none, registration_date := 0,
                language_code := none }]
    events := [{ event_id := 1, user_id := 2, event_type := "bot_command",
                 event_timestamp := 100, props := .mal }] }

/-- A database with three users where user 2 has a malformed `purchase`
payload, so purchase-feature extraction for user 2 fails on every
prediction date. -/
def batchPurchaseDb : DB :=
  { users := batchDb.users
    events := [{ event_id := 1, user_id := 1, event_type := "view",
                 event_timestamp := 0, props := .obj none none },
               { event_id := 2, user_id := 2, event_type := "purchase",
                 event_timestamp := 100, props := .mal },
               { event_id := 3, user_id := 3, event_type := "view",
                 event_timestamp := 200, props := .obj none none }] }

/-- A one-row feature table over the full churn schema, with
`avg_order_value = 5` and every other numeric cell `2`. -/
def exampleChurnDF : DFrame.DF :=
  DFrame.churnNumericalFeatures.map (fun n =>
    (n, [if n = "avg_order_value" then DFrame.Val.num 5 else DFrame.Val.num 2]))

/-- A one-row feature table over the full purchase schema, with the
sentinel `days_since_last_purchase = 999`, `avg_order_value = 5`, a boolean
`is_weekend` cell, and every other numeric cell `2`. -/
def examplePurchaseDF : DFrame.DF :=
  ("is_weekend", [DFrame.Val.boolv false]) ::
    DFrame.purchaseNumericalFeatures.map (fun n =>
      (n, [if n = "days_since_last_purchase" then DFrame.Val.num 999
           else if n = "avg_order_value" then DFrame.Val.num 5
           else DFrame.Val.num 2]))

/-- A one-row feature table over the full generic-user schema. -/
def exampleUserDF : DFrame.DF :=
  ("has_username", [DFrame.Val.boolv true]) ::
    ("has_last_name", [DFrame.Val.boolv false]) ::
    ("language_code", [DFrame.Val.str "en"]) ::
    DFrame.userNumericalFeatures.map (fun n => (n, [DFrame.Val.num 2]))

/-- A partial config update naming only `segmentation.enabled` and
`segmentation.schedule`. -/
def c5Update : Sched.Config :=
  [("segmentation",
    [("enabled", .bool true), ("schedule", .str "weekly")])]

/-! ## General list lemmas -/

theorem countP_filter_of_imp {α : Type} {p q : α → Bool}
    (h : ∀ a, p a = true → q a = true) :
    ∀ l : List α, (l.filter q).countP p = l.countP p := by
  intro l
  induction l with
  | nil => rfl
  | cons a tl ih =>
    by_cases hq : q a = true
    · simp only [List.filter_cons_of_pos hq, List.countP_cons, ih]
    · have hp : p a = false := by
        cases hpa : p a
        · rfl
        · exact absurd (h a hpa) hq
      simp only [List.filter_cons_of_neg hq, List.countP_cons, hp, ih,
        if_false, Bool.false_eq_true, add_zero]

theorem filter_filter_of_imp {α : Type} {p q : α → Bool}
    (h : ∀ a, p a = true → q a = true) :
    ∀ l : List α, (l.filter q).filter p = l.filter p := by
  intro l
  induction l with
  | nil => rfl
  | cons a tl ih =>
    by_cases hq : q a = true
    · by_cases hp : p a = true
      · simp only [List.filter_cons_of_pos hq, List.filter_cons_of_pos hp, ih]
      · simp only [List.filter_cons_of_pos hq, List.filter_cons_of_neg hp, ih]
    · have hp : p a = false := by
        cases hpa : p a
        · rfl
        · exact absurd (h a hpa) hq
      simp only [List.filter_cons_of_neg hq, ih,
        List.filter_cons_of_neg (by simp [hp] : ¬p a = true)]

theorem countP_mono_of_imp {α : Type} {p q : α → Bool}
    (h : ∀ a, p a = true → q a = true) :
    ∀ l : List α, l.countP p ≤ l.countP q := by
  intro l
  induction l with
  | nil => exact le_refl _
  | cons a tl ih =>
    simp only [List.countP_cons]
    by_cases hp : p a = true
    · simp only [hp, h a hp, if_true]
      omega
    · have hpf : p a = false := by
        cases hpa : p a with
        | false => rfl
        | true => exact absurd hpa hp
      simp only [hpf]
      by_cases hq : q a = true <;> simp [hq] <;> omega

/-! ## Window truncation lemmas -/

theorem PF.inWindow_imp_le_purchase {prediction_date days : Int} {e : Event}
    (h : PF.inWindow prediction_date days e = true) :
    (e.event_timestamp ≤ prediction_date : Bool) = true := by
  simp only [PF.inWindow, Bool.and_eq_true, decide_eq_true_eq] at h
  simpa using h.2

theorem PF.countEventsInWindow_eventsNotAfter_purchase (es : List Event) (pd d : Int) :
    PF.countEventsInWindow (eventsNotAfter es pd) pd d =
      PF.countEventsInWindow es pd d := by
  unfold PF.countEventsInWindow eventsNotAfter
  exact countP_filter_of_imp (fun e he => PF.inWindow_imp_le_purchase he) es

theorem PF.countEventsByTypeInWindow_eventsNotAfter_purchase (es : List Event)
    (et : String) (pd d : Int) :
    PF.countEventsByTypeInWindow (eventsNotAfter es pd) et pd d =
      PF.countEventsByTypeInWindow es et pd d := by
  unfold PF.countEventsByTypeInWindow eventsNotAfter
  refine countP_filter_of_imp (fun e he => ?_) es
  simp only [Bool.and_eq_true] at he
  exact PF.inWindow_imp_le_purchase he.2

theorem PF.filter_inWindow_eventsNotAfter_purchase (es : List Event) (pd d : Int) :
    (eventsNotAfter es pd).filter (PF.inWindow pd d) =
      es.filter (PF.inWindow pd d) := by
  unfold eventsNotAfter
  exact filter_filter_of_imp (fun e he => PF.inWindow_imp_le_purchase he) es

theorem PF.countUniqueDaysInWindow_eventsNotAfter_purchase (es : List Event) (pd d : Int) :
    PF.countUniqueDaysInWindow (eventsNotAfter es pd) pd d =
      PF.countUniqueDaysInWindow es pd d := by
  unfold PF.countUniqueDaysInWindow
  rw [PF.filter_inWindow_eventsNotAfter_purchase]

theorem PF.avgSessionDuration_eventsNotAfter_purchase (es : List Event) (pd d : Int) :
    PF.calculateAvgSessionDurationInWindow (eventsNotAfter es pd) pd d =
      PF.calculateAvgSessionDurationInWindow es pd d := by
  unfold PF.calculateAvgSessionDurationInWindow
  rw [PF.filter_inWindow_eventsNotAfter_purchase]

theorem PF.weekendRatio_eventsNotAfter (es : List Event) (pd d : Int) :
    PF.calculateWeekendActivityRatioInWindow (eventsNotAfter es pd) pd d =
      PF.calculateWeekendActivityRatioInWindow es pd d := by
  unfold PF.calculateWeekendActivityRatioInWindow
  rw [PF.filter_inWindow_eventsNotAfter_purchase]

theorem PF.activityTrend_eventsNotAfter (es : List Event) (pd s l : Int) :
    PF.calculateActivityTrend (eventsNotAfter es pd) pd s l =
      PF.calculateActivityTrend es pd s l := by
  unfold PF.calculateActivityTrend
  rw [PF.countEventsInWindow_eventsNotAfter_purchase, PF.countEventsInWindow_eventsNotAfter_purchase]

theorem PF.purchaseTrend_eventsNotAfter_purchase (es : List Event) (pd s l : Int) :
    PF.calculatePurchaseTrend (eventsNotAfter es pd) pd s l =
      PF.calculatePurchaseTrend es pd s l := by
  unfold PF.calculatePurchaseTrend
  rw [PF.countEventsByTypeInWindow_eventsNotAfter_purchase,
    PF.countEventsByTypeInWindow_eventsNotAfter_purchase]

theorem CF.inWindow_imp_le_churn {prediction_date days : Int} {e : Event}
    (h : CF.inWindow prediction_date days e = true) :
    (e.event_timestamp ≤ prediction_date : Bool) = true := by
  simp only [CF.inWindow, Bool.and_eq_true, decide_eq_true_eq] at h
  simpa using h.2

theorem CF.countEventsInWindow_eventsNotAfter_churn (es : List Event) (pd d : Int) :
    CF.countEventsInWindow (eventsNotAfter es pd) pd d =
      CF.countEventsInWindow es pd d := by
  unfold CF.countEventsInWindow eventsNotAfter
  exact countP_filter_of_imp (fun e he => CF.inWindow_imp_le_churn he) es

theorem CF.countEventsByTypeInWindow_eventsNotAfter_churn (es : List Event)
    (et : String) (pd d : Int) :
    CF.countEventsByTypeInWindow (eventsNotAfter es pd) et pd d =
      CF.countEventsByTypeInWindow es et pd d := by
  unfold CF.countEventsByTypeInWindow eventsNotAfter
  refine countP_filter_of_imp (fun e he => ?_) es
  simp only [Bool.and_eq_true] at he
  exact CF.inWindow_imp_le_churn he.2

theorem CF.filter_inWindow_eventsNotAfter_churn (es : List Event) (pd d : Int) :
    (eventsNotAfter es pd).filter (CF.inWindow pd d) =
      es.filter (CF.inWindow pd d) := by
  unfold eventsNotAfter
  exact filter_filter_of_imp (fun e he => CF.inWindow_imp_le_churn he) es

theorem CF.countUniqueDaysInWindow_eventsNotAfter_churn (es : List Event) (pd d : Int) :
    CF.countUniqueDaysInWindow (eventsNotAfter es pd) pd d =
      CF.countUniqueDaysInWindow es pd d := by
  unfold CF.countUniqueDaysInWindow
  rw [CF.filter_inWindow_eventsNotAfter_churn]

theorem CF.activityDrop_eventsNotAfter (es : List Event) (pd s l : Int) :
    CF.calculateActivityDrop (eventsNotAfter es pd) pd s l =
      CF.calculateActivityDrop es pd s l := by
  unfold CF.calculateActivityDrop
  rw [CF.countEventsInWindow_eventsNotAfter_churn, CF.countEventsInWindow_eventsNotAfter_churn]

theorem CF.avgSessionDuration_eventsNotAfter_churn (es : List Event) (pd d : Int) :
    CF.calculateAvgSessionDurationInWindow (eventsNotAfter es pd) pd d =
      CF.calculateAvgSessionDurationInWindow es pd d := by
  unfold CF.calculateAvgSessionDurationInWindow
  rw [CF.filter_inWindow_eventsNotAfter_churn]

theorem CF.countSessionsInWindow_eventsNotAfter (es : List Event) (pd d : Int) :
    CF.countSessionsInWindow (eventsNotAfter es pd) pd d =
      CF.countSessionsInWindow es pd d := by
  unfold CF.countSessionsInWindow
  rw [CF.filter_inWindow_eventsNotAfter_churn]

theorem CF.sessionDurationTrend_eventsNotAfter (es : List Event) (pd : Int) :
    CF.calculateSessionDurationTrend (eventsNotAfter es pd) pd =
      CF.calculateSessionDurationTrend es pd := by
  unfold CF.calculateSessionDurationTrend
  rw [CF.avgSessionDuration_eventsNotAfter_churn, CF.avgSessionDuration_eventsNotAfter_churn]

theorem CF.engagementTrend_eventsNotAfter (es : List Event) (pd : Int) :
    CF.calculateEngagementTrend (eventsNotAfter es pd) pd =
      CF.calculateEngagementTrend es pd := by
  unfold CF.calculateEngagementTrend
  rw [CF.countEventsInWindow_eventsNotAfter_churn, CF.countEventsInWindow_eventsNotAfter_churn]

theorem CF.purchaseTrend_eventsNotAfter_churn (es : List Event) (pd : Int) :
    CF.calculatePurchaseTrend (eventsNotAfter es pd) pd =
      CF.calculatePurchaseTrend es pd := by
  unfold CF.calculatePurchaseTrend
  rw [CF.countEventsByTypeInWindow_eventsNotAfter_churn,
    CF.countEventsByTypeInWindow_eventsNotAfter_churn]

/-! ## Session-grouping lemmas -/

theorem CF.sessionLoop_length (rest : List Event) :
    ∀ prev current, (CF.sessionLoop prev current rest).length =
      1 + CF.gapSplits (prev :: rest) := by
  induction rest with
  | nil => intro prev current; rfl
  | cons e tl ih =>
    intro prev current
    unfold CF.sessionLoop CF.gapSplits
    by_cases hgap : e.event_timestamp - prev.event_timestamp ≤ 1800
    · rw [if_pos hgap, ih e (current ++ [e]), if_neg (by omega)]
      omega
    · rw [if_neg hgap, if_pos (by omega)]
      simp only [List.length_cons, ih e [e]]
      omega

theorem CF.groupEventsIntoSessions_length (es : List Event) :
    (CF.groupEventsIntoSessions es).length = CF.maximalRunCount es := by
  match es with
  | [] => rfl
  | [e] => rfl
  | e :: f :: tl =>
    show (CF.sessionLoop e [e] (f :: tl)).length = CF.maximalRunCount (e :: f :: tl)
    rw [CF.sessionLoop_length]
    rfl

/-! ## Inversion of the extraction bodies -/

theorem PF.extract_some_eq_purchase {u : UserInfo} {es : List Event} {pd : Int}
    {r : PF.PurchasePredictionFeatures}
    (h : PF.extractFromEvents u es pd = some r) :
    ∃ q1 q2, PF.calculateTotalSpent es = some q1 ∧
      PF.calculateAvgOrderValue es = some q2 ∧
      r = { user_id := u.user_id
            telegram_id := u.telegram_id
            days_since_registration :=
              PF.calculateDaysSinceRegistration u.registration_date pd
            total_events := es.length
            unique_days_active := PF.calculateUniqueDaysActive es
            events_last_7_days := PF.countEventsInWindow es pd 7
            events_last_14_days := PF.countEventsInWindow es pd 14
            events_last_30_days := PF.countEventsInWindow es pd 30
            unique_days_active_last_7_days := PF.countUniqueDaysInWindow es pd 7
            unique_days_active_last_14_days := PF.countUniqueDaysInWindow es pd 14
            unique_days_active_last_30_days := PF.countUniqueDaysInWindow es pd 30
            bot_commands_last_7_days := PF.countEventsByTypeInWindow es "bot_command" pd 7
            bot_commands_last_14_days := PF.countEventsByTypeInWindow es "bot_command" pd 14
            bot_commands_last_30_days := PF.countEventsByTypeInWindow es "bot_command" pd 30
            messages_last_7_days := PF.countEventsByTypeInWindow es "message" pd 7
            messages_last_14_days := PF.countEventsByTypeInWindow es "message" pd 14
            messages_last_30_days := PF.countEventsByTypeInWindow es "message" pd 30
            callback_queries_last_7_days :=
              PF.countEventsByTypeInWindow es "callback_query" pd 7
            callback_queries_last_14_days :=
              PF.countEventsByTypeInWindow es "callback_query" pd 14
            callback_queries_last_30_days :=
              PF.countEventsByTypeInWindow es "callback_query" pd 30
            product_views_last_7_days := PF.countEventsByTypeInWindow es "view" pd 7
            product_views_last_14_days := PF.countEventsByTypeInWindow es "view" pd 14
            product_views_last_30_days := PF.countEventsByTypeInWindow es "view" pd 30
            cart_additions_last_7_days := PF.countEventsByTypeInWindow es "add_to_cart" pd 7
            cart_additions_last_14_days := PF.countEventsByTypeInWindow es "add_to_cart" pd 14
            cart_additions_last_30_days := PF.countEventsByTypeInWindow es "add_to_cart" pd 30
            total_purchases := PF.countEventsByType es "purchase"
            purchases_last_7_days := PF.countEventsByTypeInWindow es "purchase" pd 7
            purchases_last_14_days := PF.countEventsByTypeInWindow es "purchase" pd 14
            purchases_last_30_days := PF.countEventsByTypeInWindow es "purchase" pd 30
            purchases_last_60_days := PF.countEventsByTypeInWindow es "purchase" pd 60
            purchases_last_90_days := PF.countEventsByTypeInWindow es "purchase" pd 90
            total_spent := q1
            avg_order_value := q2
            days_since_last_purchase := PF.calculateDaysSinceLastPurchase es pd
            avg_session_duration_last_7_days :=
              PF.calculateAvgSessionDurationInWindow es pd 7
            avg_session_duration_last_14_days :=
              PF.calculateAvgSessionDurationInWindow es pd 14
            peak_hour := PF.calculatePeakHour es
            weekend_activity_ratio_last_7_days :=
              PF.calculateWeekendActivityRatioInWindow es pd 7
            weekend_activity_ratio_last_14_days :=
              PF.calculateWeekendActivityRatioInWindow es pd 14
            activity_trend_7d_vs_14d := PF.calculateActivityTrend es pd 7 14
            activity_trend_14d_vs_30d := PF.calculateActivityTrend es pd 14 30
            purchase_trend_30d_vs_60d := PF.calculatePurchaseTrend es pd 30 60
            is_weekend := weekdayOf pd ≥ 5
            hour_of_day := hourOf pd
            day_of_week := weekdayOf pd
            month := monthOf pd
            feature_extraction_date := pd
            prediction_horizon_days := 30 } := by
  unfold PF.extractFromEvents at h
  cases hts : PF.calculateTotalSpent es with
  | none => rw [hts] at h; simp at h
  | some q1 =>
    cases haov : PF.calculateAvgOrderValue es with
    | none => rw [hts, haov] at h; simp at h
    | some q2 =>
      rw [hts, haov] at h
      simp only [Option.some_bind, Option.pure_def] at h
      exact ⟨q1, q2, rfl, rfl, (Option.some.inj h).symm⟩

theorem CF.extract_some_eq_churn {u : UserInfo} {es : List Event} {pd : Int}
    {r : CF.ChurnPredictionFeatures}
    (h : CF.extractFromEvents u es pd = some r) :
    ∃ q1 q2 q3, CF.calculateTotalSpent es = some q1 ∧
      CF.calculateAvgOrderValue es = some q2 ∧
      CF.calculateCustomerLifetimeValue es = some q3 ∧
      r = { user_id := u.user_id
            telegram_id := u.telegram_id
            days_since_registration :=
              CF.calculateDaysSinceRegistration u.registration_date pd
            total_events := es.length
            unique_days_active := CF.calculateUniqueDaysActive es
            events_last_7_days := CF.countEventsInWindow es pd 7
            events_last_14_days := CF.countEventsInWindow es pd 14
            events_last_30_days := CF.countEventsInWindow es pd 30
            events_last_60_days := CF.countEventsInWindow es pd 60
            unique_days_active_last_7_days := CF.countUniqueDaysInWindow es pd 7
            unique_days_active_last_14_days := CF.countUniqueDaysInWindow es pd 14
            unique_days_active_last_30_days := CF.countUniqueDaysInWindow es pd 30
            unique_days_active_last_60_days := CF.countUniqueDaysInWindow es pd 60
            activity_drop_7d_vs_14d := CF.calculateActivityDrop es pd 7 14
            activity_drop_14d_vs_30d := CF.calculateActivityDrop es pd 14 30
            activity_drop_30d_vs_60d := CF.calculateActivityDrop es pd 30 60
            avg_days_between_sessions := CF.calculateAvgDaysBetweenSessions es
            max_days_between_sessions := CF.calculateMaxDaysBetweenSessions es
            days_since_last_activity := CF.calculateDaysSinceLastActivity es pd
            bot_commands_last_7_days := CF.countEventsByTypeInWindow es "bot_command" pd 7
            bot_commands_last_14_days := CF.countEventsByTypeInWindow es "bot_command" pd 14
            bot_commands_last_30_days := CF.countEventsByTypeInWindow es "bot_command" pd 30
            messages_last_7_days := CF.countEventsByTypeInWindow es "message" pd 7
            messages_last_14_days := CF.countEventsByTypeInWindow es "message" pd 14
            messages_last_30_days := CF.countEventsByTypeInWindow es "message" pd 30
            callback_queries_last_7_days :=
              CF.countEventsByTypeInWindow es "callback_query" pd 7
            callback_queries_last_14_days :=
              CF.countEventsByTypeInWindow es "callback_query" pd 14
            callback_queries_last_30_days :=
              CF.countEventsByTypeInWindow es "callback_query" pd 30
            product_views_last_7_days := CF.countEventsByTypeInWindow es "view" pd 7
            product_views_last_14_days := CF.countEventsByTypeInWindow es "view" pd 14
            product_views_last_30_days := CF.countEventsByTypeInWindow es "view" pd 30
            cart_additions_last_7_days := CF.countEventsByTypeInWindow es "add_to_cart" pd 7
            cart_additions_last_14_days := CF.countEventsByTypeInWindow es "add_to_cart" pd 14
            cart_additions_last_30_days := CF.countEventsByTypeInWindow es "add_to_cart" pd 30
            total_purchases := CF.countEventsByType es "purchase"
            purchases_last_7_days := CF.countEventsByTypeInWindow es "purchase" pd 7
            purchases_last_14_days := CF.countEventsByTypeInWindow es "purchase" pd 14
            purchases_last_30_days := CF.countEventsByTypeInWindow es "purchase" pd 30
            purchases_last_60_days := CF.countEventsByTypeInWindow es "purchase" pd 60
            total_spent := q1
            avg_order_value := q2
            days_since_last_purchase := CF.calculateDaysSinceLastPurchase es pd
            avg_session_duration_last_7_days :=
              CF.calculateAvgSessionDurationInWindow es pd 7
            avg_session_duration_last_14_days :=
              CF.calculateAvgSessionDurationInWindow es pd 14
            avg_session_duration_last_30_days :=
              CF.calculateAvgSessionDurationInWindow es pd 30
            session_count_last_7_days := CF.countSessionsInWindow es pd 7
            session_count_last_14_days := CF.countSessionsInWindow es pd 14
            session_count_last_30_days := CF.countSessionsInWindow es pd 30
            session_duration_trend := CF.calculateSessionDurationTrend es pd
            engagement_trend := CF.calculateEngagementTrend es pd
            purchase_trend := CF.calculatePurchaseTrend es pd
            peak_hour := CF.calculatePeakHour es
            weekend_activity_ratio := CF.calculateWeekendActivityRatio es
            weekday_activity_ratio := CF.calculateWeekdayActivityRatio es
            repeat_purchase_ratio := CF.calculateRepeatPurchaseRatio es
            avg_days_between_purchases := CF.calculateAvgDaysBetweenPurchases es
            customer_lifetime_value := q3
            feature_extraction_date := pd
            churn_definition_days := 30 } := by
  unfold CF.extractFromEvents at h
  cases hts : CF.calculateTotalSpent es with
  | none => rw [hts] at h; simp at h
  | some q1 =>
    cases haov : CF.calculateAvgOrderValue es with
    | none => rw [hts, haov] at h; simp at h
    | some q2 =>
      cases hclv : CF.calculateCustomerLifetimeValue es with
      | none => rw [hts, haov, hclv] at h; simp at h
      | some q3 =>
        rw [hts, haov, hclv] at h
        simp only [Option.some_bind, Option.pure_def] at h
        exact ⟨q1, q2, q3, rfl, rfl, rfl, (Option.some.inj h).symm⟩

/-! ## Claim C6 -/

/-- C6: for every time window, `_count_sessions_in_window` equals the number
of maximal runs (consecutive gaps ≤ 1800 s) of the window's events; in the
concrete scenarios, a single 30-minute idle-gap chain counts as one session
and introducing a gap > 1800 s between two of its events splits it into two. -/
theorem c6_session_count_is_maximal_runs (es : List Event) (pd d : Int) :
    CF.countSessionsInWindow es pd d =
      CF.maximalRunCount (es.filter (CF.inWindow pd d)) ∧
    CF.countSessionsInWindow chainEvents 86400 1 = 1 ∧
    CF.countSessionsInWindow gapEvents 86400 1 = 2 := by
  refine ⟨?_, by decide, by decide⟩
  unfold CF.countSessionsInWindow
  cases hw : es.filter (CF.inWindow pd d) with
  | nil => rfl
  | cons a tl =>
    cases tl with
    | nil => rfl
    | cons b tl2 =>
      rw [if_neg (by simp only [List.length_cons]; omega)]
      exact CF.groupEventsIntoSessions_length (a :: b :: tl2)

/-! ## Claim C7 -/

/-- C7: windowed per-event-type counts are monotone in the window length,
for both the purchase and the churn extractor. -/
theorem c7_window_count_monotone (es : List Event) (et : String) (pd : Int)
    (M N : Int) (h : M ≤ N) :
    PF.countEventsByTypeInWindow es et pd M ≤ PF.countEventsByTypeInWindow es et pd N ∧
    CF.countEventsByTypeInWindow es et pd M ≤ CF.countEventsByTypeInWindow es et pd N := by
  have hMN : pd - N * secPerDay ≤ pd - M * secPerDay := by
    unfold secPerDay
    omega
  constructor
  · refine countP_mono_of_imp (fun e he => ?_) es
    simp only [PF.inWindow, Bool.and_eq_true, decide_eq_true_eq] at he ⊢
    exact ⟨he.1, le_trans hMN he.2.1, he.2.2⟩
  · refine countP_mono_of_imp (fun e he => ?_) es
    simp only [CF.inWindow, Bool.and_eq_true, decide_eq_true_eq] at he ⊢
    exact ⟨he.1, le_trans hMN he.2.1, he.2.2⟩

theorem c7_window_count_monotone_witness :
    (7 : Int) ≤ 14 ∧
    PF.countEventsByTypeInWindow chainEvents "view" 86400 7 ≤
      PF.countEventsByTypeInWindow chainEvents "view" 86400 14 :=
  ⟨by decide, (c7_window_count_monotone chainEvents "view" 86400 7 14 (by decide)).1⟩

/-! ## Claim C10 -/

/-- C10: in every churn feature record, `weekday_activity_ratio` is
`1 - weekend_activity_ratio`, so the two ratios sum to exactly 1; for a user
with zero events the extractor reports `weekend_activity_ratio = 0` and
`weekday_activity_ratio = 1`. -/
theorem c10_weekday_weekend_sum (u : UserInfo) (es : List Event) (pd : Int)
    (r : CF.ChurnPredictionFeatures)
    (h : CF.extractFromEvents u es pd = some r) :
    r.weekday_activity_ratio = 1 - r.weekend_activity_ratio ∧
    r.weekend_activity_ratio + r.weekday_activity_ratio = 1 ∧
    (es = [] → r.weekend_activity_ratio = 0 ∧ r.weekday_activity_ratio = 1) := by
  obtain ⟨q1, q2, q3, _, _, _, hr⟩ := CF.extract_some_eq_churn h
  subst hr
  refine ⟨rfl, ?_, ?_⟩
  · show CF.calculateWeekendActivityRatio es + CF.calculateWeekdayActivityRatio es = 1
    unfold CF.calculateWeekdayActivityRatio
    ring
  · intro he
    subst he
    constructor
    · rfl
    · show CF.calculateWeekdayActivityRatio [] = 1
      unfold CF.calculateWeekdayActivityRatio CF.calculateWeekendActivityRatio
      norm_num

theorem c10_weekday_weekend_sum_witness :
    ((CF.extractFromEvents exUser [] 0).get (by rfl)).weekend_activity_ratio +
      ((CF.extractFromEvents exUser [] 0).get (by rfl)).weekday_activity_ratio = 1 := by
  have hS : (CF.extractFromEvents exUser [] 0).isSome = true := rfl
  exact (c10_weekday_weekend_sum exUser [] 0 _ (Option.some_get hS).symm).2.1

/-! ## Feature-table lookup lemmas -/

theorem DFrame.lookup_cons_self {b : Type} (m : String) (v : b)
    (tl : List (String × b)) :
    List.lookup m ((m, v) :: tl) = some v := by
  simp [List.lookup_cons]

theorem DFrame.lookup_cons_of_ne {b : Type} {m k : String} (h : m ≠ k) (v : b)
    (tl : List (String × b)) :
    List.lookup m ((k, v) :: tl) = List.lookup m tl := by
  simp [List.lookup_cons, beq_false_of_ne h]

theorem DFrame.lookup_mapCol (n m : String) (f : DFrame.Val → DFrame.Val)
    (df : DFrame.DF) :
    (DFrame.mapCol n f df).lookup m =
      if m = n then (df.lookup m).map (List.map f) else df.lookup m := by
  induction df with
  | nil => simp [DFrame.mapCol]
  | cons p tl ih =>
    obtain ⟨k, col⟩ := p
    show List.lookup m
      ((if k = n then (k, List.map f col) else (k, col)) :: DFrame.mapCol n f tl) = _
    by_cases hmk : m = k
    · subst hmk
      by_cases hkn : m = n
      · rw [if_pos hkn]
        simp [DFrame.lookup_cons_self, hkn]
      · rw [if_neg hkn]
        simp [DFrame.lookup_cons_self, hkn]
    · by_cases hkn : k = n
      · rw [if_pos hkn]
        simp only [DFrame.lookup_cons_of_ne hmk, ih]
      · rw [if_neg hkn]
        simp only [DFrame.lookup_cons_of_ne hmk, ih]

theorem DFrame.lookup_foldl_mapCol_zero (f : DFrame.Val → DFrame.Val)
    (m : String) :
    ∀ (names : List String) (df : DFrame.DF), names.count m = 0 →
      (names.foldl (fun d n => DFrame.mapCol n f d) df).lookup m = df.lookup m := by
  intro names
  induction names with
  | nil => intro df _; rfl
  | cons n ns ih =>
    intro df hc
    simp only [List.count_cons] at hc
    have hn : ¬(n = m) := by
      intro h
      simp [h] at hc
    have hns : ns.count m = 0 := by
      have hb : (n == m) = false := beq_false_of_ne hn
      simp only [hb, if_false, Bool.false_eq_true] at hc
      omega
    show (ns.foldl (fun d n => DFrame.mapCol n f d) (DFrame.mapCol n f df)).lookup m =
      df.lookup m
    rw [ih (DFrame.mapCol n f df) hns, DFrame.lookup_mapCol,
      if_neg (fun h => hn h.symm)]

theorem DFrame.lookup_foldl_mapCol_one (f : DFrame.Val → DFrame.Val)
    (m : String) :
    ∀ (names : List String) (df : DFrame.DF), names.count m = 1 →
      (names.foldl (fun d n => DFrame.mapCol n f d) df).lookup m =
        (df.lookup m).map (List.map f) := by
  intro names
  induction names with
  | nil => intro df hc; simp at hc
  | cons n ns ih =>
    intro df hc
    simp only [List.count_cons] at hc
    by_cases hn : n = m
    · have hns : ns.count n = 0 := by
        subst hn
        simp at hc
        omega
      subst hn
      show (ns.foldl (fun d k => DFrame.mapCol k f d) (DFrame.mapCol n f df)).lookup n =
        (df.lookup n).map (List.map f)
      rw [DFrame.lookup_foldl_mapCol_zero f n ns (DFrame.mapCol n f df) hns,
        DFrame.lookup_mapCol, if_pos rfl]
    · have hns : ns.count m = 1 := by
        have hb : (n == m) = false := beq_false_of_ne hn
        simp only [hb, if_false, Bool.false_eq_true] at hc
        omega
      show (ns.foldl (fun d k => DFrame.mapCol k f d) (DFrame.mapCol n f df)).lookup m =
        (df.lookup m).map (List.map f)
      rw [ih (DFrame.mapCol n f df) hns, DFrame.lookup_mapCol,
        if_neg (fun h => hn h.symm)]

theorem DFrame.lookup_append {b : Type} (m : String) :
    ∀ l1 l2 : List (String × b),
      (l1 ++ l2).lookup m = ((l1.lookup m).or (l2.lookup m)) := by
  intro l1 l2
  induction l1 with
  | nil => simp
  | cons p tl ih =>
    obtain ⟨k, col⟩ := p
    by_cases hmk : m = k
    · subst hmk
      rw [List.cons_append, DFrame.lookup_cons_self, DFrame.lookup_cons_self]
      rfl
    · rw [List.cons_append, DFrame.lookup_cons_of_ne hmk,
        DFrame.lookup_cons_of_ne hmk, ih]

theorem DFrame.lookup_filter_ne (m lc : String) (h : m ≠ lc) :
    ∀ df : DFrame.DF,
      (df.filter (fun p => p.1 ≠ lc)).lookup m = df.lookup m := by
  intro df
  induction df with
  | nil => rfl
  | cons p tl ih =>
    obtain ⟨k, col⟩ := p
    by_cases hk : k = lc
    · rw [List.filter_cons_of_neg (by simp [hk])]
      rw [ih, DFrame.lookup_cons_of_ne (fun hmk => h (hmk.trans hk)) col tl]
    · rw [List.filter_cons_of_pos (by simpa using hk)]
      by_cases hmk : m = k
      · subst hmk
        rw [DFrame.lookup_cons_self, DFrame.lookup_cons_self]
      · rw [DFrame.lookup_cons_of_ne hmk, DFrame.lookup_cons_of_ne hmk, ih]

theorem DFrame.map_fillna0_of_noNan {c : List DFrame.Val}
    (h : DFrame.noNanCol c) : c.map DFrame.fillna0 = c := by
  induction c with
  | nil => rfl
  | cons v tl ih =>
    have hv : v ≠ DFrame.Val.nan := h v (by simp)
    have htl : DFrame.noNanCol tl := fun w hw => h w (by simp [hw])
    simp only [List.map_cons, ih htl]
    congr 1
    cases v <;> simp [DFrame.fillna0] at hv ⊢

theorem DFrame.fillnaCols_eq_foldl (names : List String) (df : DFrame.DF) :
    DFrame.fillnaCols names df =
      names.foldl (fun d n => DFrame.mapCol n DFrame.fillna0 d) df := rfl

theorem DFrame.log1pCols_eq_foldl (names : List String) (df : DFrame.DF) :
    DFrame.log1pCols names df =
      names.foldl (fun d n => DFrame.mapCol n DFrame.Val.log1p d) df := rfl

/-! ## Claim C3 -/

/-- C3 (amended): in the purchase and churn extractors, a user with zero
purchase events gets `avg_order_value = 0` and
`days_since_last_purchase = 999` (and 999 becomes 365 in the ML-ready
transform), and the churn extractor's `days_since_last_activity` is 999 for
zero events; but the generic user extractor returns `0`, not the sentinel
999, for `days_since_last_activity` with zero events. -/
theorem c3_sentinel_recency (es : List Event) (pd now : Int) (df : DFrame.DF)
    (c : List DFrame.Val)
    (hp : es.filter (fun e => e.event_type = "purchase") = [])
    (hc : df.lookup "days_since_last_purchase" = some c) :
    PF.calculateAvgOrderValue es = some 0 ∧
    PF.calculateDaysSinceLastPurchase es pd = 999 ∧
    CF.calculateAvgOrderValue es = some 0 ∧
    CF.calculateDaysSinceLastPurchase es pd = 999 ∧
    UF.calculateAvgOrderValue es = some 0 ∧
    CF.calculateDaysSinceLastActivity [] pd = 999 ∧
    UF.calculateDaysSinceLastActivity [] now = 0 ∧
    (DFrame.preparePurchaseFeaturesForMl df).lookup "days_since_last_purchase" =
      some (c.map (fun v => DFrame.replace999 (DFrame.fillna0 v))) ∧
    DFrame.replace999 (DFrame.fillna0 (DFrame.Val.num 999)) = DFrame.Val.num 365 := by
  refine ⟨?_, ?_, ?_, ?_, ?_, rfl, rfl, ?_, by decide⟩
  · simp [PF.calculateAvgOrderValue, hp]
  · simp [PF.calculateDaysSinceLastPurchase, hp]
  · simp [CF.calculateAvgOrderValue, hp]
  · simp [CF.calculateDaysSinceLastPurchase, hp]
  · simp [UF.calculateAvgOrderValue, hp]
  · unfold DFrame.preparePurchaseFeaturesForMl
    rw [DFrame.lookup_mapCol, if_pos rfl, DFrame.log1pCols_eq_foldl,
      DFrame.lookup_foldl_mapCol_zero _ _ _ _ (by decide),
      DFrame.fillnaCols_eq_foldl,
      DFrame.lookup_foldl_mapCol_one _ _ _ _ (by decide),
      DFrame.lookup_mapCol, if_neg (by decide), hc]
    simp [List.map_map, Function.comp]

theorem c3_sentinel_recency_counterexample :
    (UF.extractUserFeatures { users := [exUser], events := [] } 86400 1).map
      (fun r => r.days_since_last_activity) = some 0 ∧
    (0 : Int) ≠ 999 :=
  ⟨rfl, by decide⟩

theorem c3_sentinel_recency_witness :
    (([] : List Event).filter (fun e => e.event_type = "purchase") = [] ∧
      examplePurchaseDF.lookup "days_since_last_purchase" =
        some [DFrame.Val.num 999]) ∧
    PF.calculateAvgOrderValue [] = some 0 ∧
    (DFrame.preparePurchaseFeaturesForMl examplePurchaseDF).lookup
        "days_since_last_purchase" =
      some ([DFrame.Val.num 999].map
        (fun v => DFrame.replace999 (DFrame.fillna0 v))) := by
  have h := c3_sentinel_recency [] 0 86400 examplePurchaseDF
    [DFrame.Val.num 999] (by decide) (by decide)
  exact ⟨⟨by decide, by decide⟩, h.1, h.2.2.2.2.2.2.2.1⟩

/-! ## Claim C4 -/

/-- C4 (amended): the user and purchase ML-ready transforms replace
`total_events`, `total_spent` and `avg_order_value` (the three of the four
named fields present in those tables) by `log(1+x)` of their prior
(NaN-filled) value and leave `customer_lifetime_value` untouched; the churn
transform replaces `total_events`, `total_spent` and
`customer_lifetime_value`, but leaves `avg_order_value` — although present —
untransformed (only NaN-filled). -/
theorem c4_log1p_transform (df : DFrame.DF) (cte cts caov cclv : List DFrame.Val)
    (hte : df.lookup "total_events" = some cte) (hteN : DFrame.noNanCol cte)
    (hts : df.lookup "total_spent" = some cts) (htsN : DFrame.noNanCol cts)
    (haov : df.lookup "avg_order_value" = some caov) (haovN : DFrame.noNanCol caov)
    (hclv : df.lookup "customer_lifetime_value" = some cclv)
    (hclvN : DFrame.noNanCol cclv) :
    ((DFrame.prepareFeaturesForMl df).lookup "total_events" =
        some (cte.map DFrame.Val.log1p) ∧
      (DFrame.prepareFeaturesForMl df).lookup "total_spent" =
        some (cts.map DFrame.Val.log1p) ∧
      (DFrame.prepareFeaturesForMl df).lookup "avg_order_value" =
        some (caov.map DFrame.Val.log1p) ∧
      (DFrame.prepareFeaturesForMl df).lookup "customer_lifetime_value" =
        some cclv) ∧
    ((DFrame.preparePurchaseFeaturesForMl df).lookup "total_events" =
        some (cte.map DFrame.Val.log1p) ∧
      (DFrame.preparePurchaseFeaturesForMl df).lookup "total_spent" =
        some (cts.map DFrame.Val.log1p) ∧
      (DFrame.preparePurchaseFeaturesForMl df).lookup "avg_order_value" =
        some (caov.map DFrame.Val.log1p) ∧
      (DFrame.preparePurchaseFeaturesForMl df).lookup "customer_lifetime_value" =
        some cclv) ∧
    ((DFrame.prepareChurnFeaturesForMl df).lookup "total_events" =
        some (cte.map DFrame.Val.log1p) ∧
      (DFrame.prepareChurnFeaturesForMl df).lookup "total_spent" =
        some (cts.map DFrame.Val.log1p) ∧
      (DFrame.prepareChurnFeaturesForMl df).lookup "customer_lifetime_value" =
        some (cclv.map DFrame.Val.log1p) ∧
      (DFrame.prepareChurnFeaturesForMl df).lookup "avg_order_value" =
        some caov) := by
  have huser : ∀ (m : String) (cm : List DFrame.Val), df.lookup m = some cm →
      m ≠ "language_code" → m ≠ "has_username" → m ≠ "has_last_name" →
      ((DFrame.mapCol "has_last_name" DFrame.boolToInt
          (DFrame.mapCol "has_username" DFrame.boolToInt df) ++
        DFrame.langDummies (DFrame.mapCol "has_last_name" DFrame.boolToInt
          (DFrame.mapCol "has_username" DFrame.boolToInt df))).filter
            (fun p => p.1 ≠ "language_code")).lookup m = some cm := by
    intro m cm hm hlc h1 h2
    rw [DFrame.lookup_filter_ne _ _ hlc, DFrame.lookup_append,
      DFrame.lookup_mapCol, if_neg h2, DFrame.lookup_mapCol, if_neg h1, hm]
    rfl
  refine ⟨⟨?_, ?_, ?_, ?_⟩, ⟨?_, ?_, ?_, ?_⟩, ⟨?_, ?_, ?_, ?_⟩⟩
  · unfold DFrame.prepareFeaturesForMl
    rw [DFrame.log1pCols_eq_foldl, DFrame.lookup_foldl_mapCol_one _ _ _ _ (by decide),
      DFrame.fillnaCols_eq_foldl, DFrame.lookup_foldl_mapCol_one _ _ _ _ (by decide),
      huser _ _ hte (by decide) (by decide) (by decide)]
    simp [DFrame.map_fillna0_of_noNan hteN]
  · unfold DFrame.prepareFeaturesForMl
    rw [DFrame.log1pCols_eq_foldl, DFrame.lookup_foldl_mapCol_one _ _ _ _ (by decide),
      DFrame.fillnaCols_eq_foldl, DFrame.lookup_foldl_mapCol_one _ _ _ _ (by decide),
      huser _ _ hts (by decide) (by decide) (by decide)]
    simp [DFrame.map_fillna0_of_noNan htsN]
  · unfold DFrame.prepareFeaturesForMl
    rw [DFrame.log1pCols_eq_foldl, DFrame.lookup_foldl_mapCol_one _ _ _ _ (by decide),
      DFrame.fillnaCols_eq_foldl, DFrame.lookup_foldl_mapCol_one _ _ _ _ (by decide),
      huser _ _ haov (by decide) (by decide) (by decide)]
    simp [DFrame.map_fillna0_of_noNan haovN]
  · unfold DFrame.prepareFeaturesForMl
    rw [DFrame.log1pCols_eq_foldl, DFrame.lookup_foldl_mapCol_zero _ _ _ _ (by decide),
      DFrame.fillnaCols_eq_foldl, DFrame.lookup_foldl_mapCol_zero _ _ _ _ (by decide),
      huser _ _ hclv (by decide) (by decide) (by decide)]
  · unfold DFrame.preparePurchaseFeaturesForMl
    rw [DFrame.lookup_mapCol, if_neg (by decide), DFrame.log1pCols_eq_foldl,
      DFrame.lookup_foldl_mapCol_one _ _ _ _ (by decide),
      DFrame.fillnaCols_eq_foldl, DFrame.lookup_foldl_mapCol_one _ _ _ _ (by decide),
      DFrame.lookup_mapCol, if_neg (by decide), hte]
    simp [DFrame.map_fillna0_of_noNan hteN]
  · unfold DFrame.preparePurchaseFeaturesForMl
    rw [DFrame.lookup_mapCol, if_neg (by decide), DFrame.log1pCols_eq_foldl,
      DFrame.lookup_foldl_mapCol_one _ _ _ _ (by decide),
      DFrame.fillnaCols_eq_foldl, DFrame.lookup_foldl_mapCol_one _ _ _ _ (by decide),
      DFrame.lookup_mapCol, if_neg (by decide), hts]
    simp [DFrame.map_fillna0_of_noNan htsN]
  · unfold DFrame.preparePurchaseFeaturesForMl
    rw [DFrame.lookup_mapCol, if_neg (by decide), DFrame.log1pCols_eq_foldl,
      DFrame.lookup_foldl_mapCol_one _ _ _ _ (by decide),
      DFrame.fillnaCols_eq_foldl, DFrame.lookup_foldl_mapCol_one _ _ _ _ (by decide),
      DFrame.lookup_mapCol, if_neg (by decide), haov]
    simp [DFrame.map_fillna0_of_noNan haovN]
  · unfold DFrame.preparePurchaseFeaturesForMl
    rw [DFrame.lookup_mapCol, if_neg (by decide), DFrame.log1pCols_eq_foldl,
      DFrame.lookup_foldl_mapCol_zero _ _ _ _ (by decide),
      DFrame.fillnaCols_eq_foldl, DFrame.lookup_foldl_mapCol_zero _ _ _ _ (by decide),
      DFrame.lookup_mapCol, if_neg (by decide), hclv]
  · unfold DFrame.prepareChurnFeaturesForMl
    rw [DFrame.log1pCols_eq_foldl, DFrame.lookup_foldl_mapCol_one _ _ _ _ (by decide),
      DFrame.lookup_mapCol, if_neg (by decide),
      DFrame.lookup_mapCol, if_neg (by decide),
      DFrame.lookup_mapCol, if_neg (by decide),
      DFrame.fillnaCols_eq_foldl, DFrame.lookup_foldl_mapCol_one _ _ _ _ (by decide),
      hte]
    simp [DFrame.map_fillna0_of_noNan hteN]
  · unfold DFrame.prepareChurnFeaturesForMl
    rw [DFrame.log1pCols_eq_foldl, DFrame.lookup_foldl_mapCol_one _ _ _ _ (by decide),
      DFrame.lookup_mapCol, if_neg (by decide),
      DFrame.lookup_mapCol, if_neg (by decide),
      DFrame.lookup_mapCol, if_neg (by decide),
      DFrame.fillnaCols_eq_foldl, DFrame.lookup_foldl_mapCol_one _ _ _ _ (by decide),
      hts]
    simp [DFrame.map_fillna0_of_noNan htsN]
  · unfold DFrame.prepareChurnFeaturesForMl
    rw [DFrame.log1pCols_eq_foldl, DFrame.lookup_foldl_mapCol_one _ _ _ _ (by decide),
      DFrame.lookup_mapCol, if_neg (by decide),
      DFrame.lookup_mapCol, if_neg (by decide),
      DFrame.lookup_mapCol, if_neg (by decide),
      DFrame.fillnaCols_eq_foldl, DFrame.lookup_foldl_mapCol_one _ _ _ _ (by decide),
      hclv]
    simp [DFrame.map_fillna0_of_noNan hclvN]
  · unfold DFrame.prepareChurnFeaturesForMl
    rw [DFrame.log1pCols_eq_foldl, DFrame.lookup_foldl_mapCol_zero _ _ _ _ (by decide),
      DFrame.lookup_mapCol, if_neg (by decide),
      DFrame.lookup_mapCol, if_neg (by decide),
      DFrame.lookup_mapCol, if_neg (by decide),
      DFrame.fillnaCols_eq_foldl, DFrame.lookup_foldl_mapCol_one _ _ _ _ (by decide),
      haov]
    simp [DFrame.map_fillna0_of_noNan haovN]

set_option maxRecDepth 4000 in
theorem c4_log1p_transform_counterexample :
    exampleChurnDF.lookup "avg_order_value" = some [DFrame.Val.num 5] ∧
    (DFrame.prepareChurnFeaturesForMl exampleChurnDF).lookup "avg_order_value" =
      some [DFrame.Val.num 5] ∧
    DFrame.Val.num 5 ≠ DFrame.Val.log1p (DFrame.Val.num 5) := by
  refine ⟨by decide, by decide, by decide⟩

theorem c4_log1p_transform_witness :
    exampleChurnDF.lookup "total_events" = some [DFrame.Val.num 2] ∧
    (DFrame.prepareChurnFeaturesForMl exampleChurnDF).lookup "total_events" =
      some [DFrame.Val.log1p (DFrame.Val.num 2)] := by
  have h := c4_log1p_transform exampleChurnDF
    [DFrame.Val.num 2] [DFrame.Val.num 2] [DFrame.Val.num 5] [DFrame.Val.num 2]
    (by decide) (by decide) (by decide) (by decide)
    (by decide) (by decide) (by decide) (by decide)
  exact ⟨by decide, h.2.2.1⟩

/-! ## Claim C5 -/

theorem Sched.lookup_filter_none {a : Type} (k : String)
    (p : String × a → Bool) :
    ∀ l : List (String × a), l.lookup k = none → (l.filter p).lookup k = none := by
  intro l
  induction l with
  | nil => intro _; rfl
  | cons q tl ih =>
    obtain ⟨k2, v⟩ := q
    intro hl
    by_cases hk : k = k2
    · subst hk
      rw [DFrame.lookup_cons_self] at hl
      exact absurd hl (by simp)
    · rw [DFrame.lookup_cons_of_ne hk] at hl
      by_cases hp : p (k2, v) = true
      · rw [List.filter_cons_of_pos hp, DFrame.lookup_cons_of_ne hk]
        exact ih hl
      · rw [List.filter_cons_of_neg hp]
        exact ih hl

theorem Sched.lookup_map_update {a : Type} (k : String)
    (upd : List (String × a)) (hk : upd.lookup k = none) :
    ∀ base : List (String × a),
      (base.map (fun p =>
        match upd.lookup p.1 with
        | some w => (p.1, w)
        | none => p)).lookup k = base.lookup k := by
  intro base
  induction base with
  | nil => rfl
  | cons q tl ih =>
    obtain ⟨k2, v⟩ := q
    by_cases hk2 : k = k2
    · subst hk2
      show ((match upd.lookup k with
              | some w => (k, w)
              | none => (k, v)) :: _).lookup k = _
      rw [hk, DFrame.lookup_cons_self, DFrame.lookup_cons_self]
    · cases hu : upd.lookup k2 with
      | none =>
        show ((match upd.lookup k2 with
                | some w => (k2, w)
                | none => (k2, v)) :: _).lookup k = _
        rw [hu, DFrame.lookup_cons_of_ne hk2, DFrame.lookup_cons_of_ne hk2]
        exact ih
      | some w =>
        show ((match upd.lookup k2 with
                | some w => (k2, w)
                | none => (k2, v)) :: _).lookup k = _
        rw [hu, DFrame.lookup_cons_of_ne hk2, DFrame.lookup_cons_of_ne hk2]
        exact ih

theorem Sched.lookup_dictUpdate_none {a : Type} (k : String)
    (upd : List (String × a)) (hk : upd.lookup k = none)
    (base : List (String × a)) :
    (Sched.dictUpdate base upd).lookup k = base.lookup k := by
  unfold Sched.dictUpdate
  rw [DFrame.lookup_append, Sched.lookup_map_update k upd hk base,
    Sched.lookup_filter_none k _ upd hk]
  cases base.lookup k <;> rfl

/-- C5 (amended): `update_retraining_config` performs a shallow
`dict.update`: a top-level section not named in the update keeps its value,
and the schedule is rebuilt from scratch from the merged config alone
(cleared, then jobs re-registered; a rebuild failure after the clear leaves
no jobs); but fields inside a named section that are absent from the
update are dropped, not preserved. -/
theorem c5_update_retraining_config (s : Sched.SchedulerState)
    (cfg : Sched.Config) (k : String) (hk : cfg.lookup k = none) :
    (Sched.updateRetrainingConfig s cfg).retraining_config =
      Sched.dictUpdate s.retraining_config cfg ∧
    (Sched.updateRetrainingConfig s cfg).retraining_config.lookup k =
      s.retraining_config.lookup k ∧
    (Sched.updateRetrainingConfig s cfg).jobs =
      (Sched.setupSchedule (Sched.dictUpdate s.retraining_config cfg)).getD [] ∧
    (Sched.updateRetrainingConfig s cfg).is_running = s.is_running := by
  refine ⟨rfl, ?_, rfl, rfl⟩
  exact Sched.lookup_dictUpdate_none k cfg hk s.retraining_config

theorem c5_update_retraining_config_counterexample :
    ((Sched.initialSchedulerState.retraining_config.lookup "segmentation").bind
        (fun seg => seg.lookup "time")) = some (Sched.CVal.str "02:00") ∧
    (((Sched.updateRetrainingConfig Sched.initialSchedulerState
          c5Update).retraining_config.lookup "segmentation").bind
        (fun seg => seg.lookup "time")) = none :=
  ⟨by decide, by decide⟩

theorem c5_update_retraining_config_witness :
    c5Update.lookup "other" = none ∧
    (Sched.updateRetrainingConfig Sched.initialSchedulerState
        c5Update).retraining_config.lookup "other" =
      Sched.initialSchedulerState.retraining_config.lookup "other" :=
  ⟨by decide,
    (c5_update_retraining_config Sched.initialSchedulerState c5Update "other"
      (by decide)).2.1⟩

/-! ## Claim C8 -/

/-- C8: `start()` on an already-running scheduler is a no-op (same state:
no new thread, no job re-registration, flag unchanged), so calling `start()`
twice equals calling it once and leaves exactly one spawned loop; this holds
for both `ModelRetrainingScheduler` and `PredictionUpdater`. -/
theorem c8_start_idempotent (s : Sched.SchedulerState) (t : Sched.UpdaterState) :
    Sched.start (Sched.start s) = Sched.start s ∧
    (Sched.start s).is_running = true ∧
    (s.is_running = true → Sched.start s = s) ∧
    (s.is_running = false → (Sched.start s).threads = s.threads + 1) ∧
    Sched.startUpdater (Sched.startUpdater t) = Sched.startUpdater t ∧
    (Sched.startUpdater t).is_running = true ∧
    (t.is_running = true → Sched.startUpdater t = t) := by
  have hrun : (Sched.start s).is_running = true := by
    unfold Sched.start
    by_cases h : s.is_running = true <;> simp [h]
  have hrunU : (Sched.startUpdater t).is_running = true := by
    unfold Sched.startUpdater
    by_cases h : t.is_running = true <;> simp [h]
  refine ⟨?_, hrun, ?_, ?_, ?_, hrunU, ?_⟩
  · show (if (Sched.start s).is_running then _ else _) = Sched.start s
    rw [hrun]
    simp
  · intro h
    unfold Sched.start
    rw [h]
    simp
  · intro h
    unfold Sched.start
    rw [h]
    simp
  · show (if (Sched.startUpdater t).is_running then _ else _) = Sched.startUpdater t
    rw [hrunU]
    simp
  · intro h
    unfold Sched.startUpdater
    rw [h]
    simp

theorem c8_start_idempotent_witness :
    (Sched.start Sched.initialSchedulerState).is_running = true ∧
    Sched.start (Sched.start Sched.initialSchedulerState) =
      Sched.start Sched.initialSchedulerState ∧
    Sched.start (Sched.start Sched.initialSchedulerState) =
      { retraining_config := Sched.defaultRetrainingConfig
        jobs := [Sched.Job.dailyAt "02:00"]
        is_running := true
        threads := 1 } := by
  refine ⟨(c8_start_idempotent Sched.initialSchedulerState
      Sched.initialUpdaterState).2.1,
    (c8_start_idempotent Sched.initialSchedulerState
      Sched.initialUpdaterState).1, ?_⟩
  rw [(c8_start_idempotent Sched.initialSchedulerState
      Sched.initialUpdaterState).1]
  decide


/-! ## Claim C9 -/

theorem filterMap_none_of_forall {a b : Type} (f : a → Option b) :
    ∀ l : List a, (∀ x ∈ l, f x = none) → l.filterMap f = [] := by
  intro l
  induction l with
  | nil => intro _; rfl
  | cons x tl ih =>
    intro h
    rw [List.filterMap_cons, h x (by simp)]
    exact ih (fun y hy => h y (by simp [hy]))

/-- C9: feature extraction for a `user_id` with no user row returns `None`
rather than raising, and in batch extraction a failing user's row is
omitted while every remaining user is still processed, both in
`extract_all_users_features` and in `extract_training_data`. -/
theorem c9_not_found_and_batch_skip (db : DB) (pd now s e : Int) (uid : Int)
    (limit : Option Nat) (l1 l2 : List Int) :
    (getUserInfo db uid = none →
      PF.extractUserPurchaseFeatures db uid pd = none ∧
      CF.extractUserChurnFeatures db uid pd = none ∧
      UF.extractUserFeatures db now uid = none) ∧
    (UF.getAllUsers db limit = l1 ++ uid :: l2 →
      UF.extractUserFeatures db now uid = none →
      UF.extractAllUsersFeatures db now limit =
        l1.filterMap (UF.extractUserFeatures db now) ++
          l2.filterMap (UF.extractUserFeatures db now)) ∧
    (PF.getUsersForTraining db s e limit = l1 ++ uid :: l2 →
      (∀ d : Int, PF.extractUserPurchaseFeatures db uid d = none) →
      PF.extractTrainingData db s e limit =
        l1.flatMap (fun v => PF.perUserTrainingRows db v s e) ++
          l2.flatMap (fun v => PF.perUserTrainingRows db v s e)) := by
  refine ⟨?_, ?_, ?_⟩
  · intro h
    refine ⟨?_, ?_, ?_⟩
    · unfold PF.extractUserPurchaseFeatures
      rw [h]
    · unfold CF.extractUserChurnFeatures
      rw [h]
    · unfold UF.extractUserFeatures
      rw [h]
  · intro hl hf
    unfold UF.extractAllUsersFeatures
    rw [hl, List.filterMap_append, List.filterMap_cons, hf]
  · intro hl hf
    have hrows : PF.perUserTrainingRows db uid s e = [] := by
      unfold PF.perUserTrainingRows
      refine filterMap_none_of_forall _ _ (fun d _ => ?_)
      rw [hf d]
      rfl
    unfold PF.extractTrainingData
    rw [hl, List.flatMap_append, List.flatMap_cons, hrows]
    rw [List.nil_append]

theorem c9_not_found_and_batch_skip_witness :
    getUserInfo batchDb 99 = none ∧
    PF.extractUserPurchaseFeatures batchDb 99 0 = none ∧
    UF.getAllUsers batchDb none = [1] ++ 2 :: [3] ∧
    UF.extractUserFeatures batchDb 86400 2 = none ∧
    UF.extractAllUsersFeatures batchDb 86400 none =
      [1].filterMap (UF.extractUserFeatures batchDb 86400) ++
        [3].filterMap (UF.extractUserFeatures batchDb 86400) ∧
    PF.extractTrainingData batchPurchaseDb 0 86400 none =
      [1].flatMap (fun v => PF.perUserTrainingRows batchPurchaseDb v 0 86400) ++
        [3].flatMap (fun v => PF.perUserTrainingRows batchPurchaseDb v 0 86400) := by
  have h99 : getUserInfo batchDb 99 = none := by decide
  have h2 : UF.extractUserFeatures batchDb 86400 2 = none := rfl
  have hp2 : ∀ d : Int, PF.extractUserPurchaseFeatures batchPurchaseDb 2 d = none :=
    fun _ => rfl
  refine ⟨h99,
    ((c9_not_found_and_batch_skip batchDb 0 86400 0 86400 99 none [] []).1 h99).1,
    by decide, h2, ?_, ?_⟩
  · exact (c9_not_found_and_batch_skip batchDb 0 86400 0 86400 2 none
      [1] [3]).2.1 (by decide) h2
  · exact (c9_not_found_and_batch_skip batchPurchaseDb 0 86400 0 86400 2 none
      [1] [3]).2.2 (by decide) hp2

/-! ## Claim C2 -/

theorem PF.dayIterate_of_le {s e : Int} (h : s ≤ e) :
    PF.dayIterate s e = s :: PF.dayIterate (s + 86400) e := by
  rw [PF.dayIterate]
  exact dif_pos h

theorem PF.dayIterate_of_gt {s e : Int} (h : ¬s ≤ e) :
    PF.dayIterate s e = [] := by
  rw [PF.dayIterate]
  exact dif_neg h

theorem PF.mem_dayIterate (s e x : Int) (hx : x ∈ PF.dayIterate s e) : s ≤ x := by
  by_cases h : s ≤ e
  · rw [PF.dayIterate_of_le h] at hx
    rcases List.mem_cons.mp hx with h1 | h2
    · omega
    · have := PF.mem_dayIterate (s + 86400) e x h2
      omega
  · rw [PF.dayIterate_of_gt h] at hx
    simp at hx
termination_by (e + 86400 - s).toNat
decreasing_by omega

theorem PF.dayIterate_pairwise (s e : Int) :
    (PF.dayIterate s e).Pairwise (· < ·) := by
  by_cases h : s ≤ e
  · rw [PF.dayIterate_of_le h]
    refine List.Pairwise.cons (fun x hx => ?_) (PF.dayIterate_pairwise (s + 86400) e)
    have := PF.mem_dayIterate (s + 86400) e x hx
    omega
  · rw [PF.dayIterate_of_gt h]
    exact List.Pairwise.nil
termination_by (e + 86400 - s).toNat
decreasing_by omega

theorem PF.dayIterate_length (s e : Int) :
    (PF.dayIterate s e).length =
      if s ≤ e then ((e - s).fdiv 86400 + 1).toNat else 0 := by
  by_cases h : s ≤ e
  · rw [PF.dayIterate_of_le h, List.length_cons, PF.dayIterate_length (s + 86400) e]
    rw [if_pos h]
    by_cases h2 : s + 86400 ≤ e
    · rw [if_pos h2, Int.fdiv_eq_ediv _ (by norm_num), Int.fdiv_eq_ediv _ (by norm_num)]
      omega
    · rw [if_neg h2, Int.fdiv_eq_ediv _ (by norm_num)]
      omega
  · rw [PF.dayIterate_of_gt h, if_neg h]
    rfl
termination_by (e + 86400 - s).toNat
decreasing_by omega

theorem PF.extract_success (db : DB) (uid : Int) (d : Int) (u : UserInfo)
    (q : ℚ) (hu : getUserInfo db uid = some u)
    (ht : PF.calculateTotalSpent (getUserEvents db uid) = some q) :
    ∃ r, PF.extractUserPurchaseFeatures db uid d = some r ∧
      r.feature_extraction_date = d := by
  have haov : ∃ w, PF.calculateAvgOrderValue (getUserEvents db uid) = some w := by
    by_cases hP : ((getUserEvents db uid).filter
        (fun ev => ev.event_type = "purchase")).isEmpty
    · exact ⟨0, by simp [PF.calculateAvgOrderValue, hP]⟩
    · refine ⟨q / (((getUserEvents db uid).filter
        (fun ev => ev.event_type = "purchase")).length : ℚ), ?_⟩
      simp only [PF.calculateAvgOrderValue]
      rw [if_neg hP, ht]
      rfl
  obtain ⟨w, hw⟩ := haov
  unfold PF.extractUserPurchaseFeatures
  rw [hu]
  unfold PF.extractFromEvents
  rw [ht, hw]
  exact ⟨_, rfl, rfl⟩

theorem PF.perUserRows_map_dates (db : DB) (uid : Int) (u : UserInfo) (q : ℚ)
    (hu : getUserInfo db uid = some u)
    (ht : PF.calculateTotalSpent (getUserEvents db uid) = some q) :
    ∀ ds : List Int,
      ((ds.filterMap (fun d => (PF.extractUserPurchaseFeatures db uid d).map
          (PF.addTargetVariable db uid d))).map
        (fun lr => lr.features.feature_extraction_date)) = ds := by
  intro ds
  induction ds with
  | nil => rfl
  | cons d tl ih =>
    obtain ⟨r, hr, hrd⟩ := PF.extract_success db uid d u q hu ht
    rw [List.filterMap_cons, hr]
    simp only [Option.map_some']
    rw [List.map_cons, ih]
    have : (PF.addTargetVariable db uid d r).features = r := rfl
    rw [this, hrd]

/-- C2 (amended): for a user that exists and whose events parse, the
training loop produces exactly one labeled record per day of
`[start_date, end_date]` (both endpoints included), with
`feature_extraction_date` equal to that day; the days are strictly
increasing (all distinct), a 5-day window (`end = start + 4 days`) yields
exactly 5 rows, and a user therefore contributes up to
`(end - start) + 1` labeled rows — one more than the claim's
`(end - start)` bound. -/
theorem c2_one_row_per_day (db : DB) (uid : Int) (s e : Int) (u : UserInfo)
    (q : ℚ) (hu : getUserInfo db uid = some u)
    (ht : PF.calculateTotalSpent (getUserEvents db uid) = some q) :
    ((PF.perUserTrainingRows db uid s e).map
        (fun lr => lr.features.feature_extraction_date) = PF.dayIterate s e) ∧
    (PF.dayIterate s e).Pairwise (· < ·) ∧
    (s ≤ e → (PF.perUserTrainingRows db uid s e).length =
      ((e - s).fdiv 86400 + 1).toNat) ∧
    (e = s + 4 * 86400 → (PF.perUserTrainingRows db uid s e).length = 5) ∧
    PF.extractTrainingData db s e none =
      (PF.getUsersForTraining db s e none).flatMap
        (fun v => PF.perUserTrainingRows db v s e) := by
  have hmap : (PF.perUserTrainingRows db uid s e).map
      (fun lr => lr.features.feature_extraction_date) = PF.dayIterate s e :=
    PF.perUserRows_map_dates db uid u q hu ht (PF.dayIterate s e)
  have hlen : (PF.perUserTrainingRows db uid s e).length =
      (PF.dayIterate s e).length := by
    rw [← hmap, List.length_map]
  refine ⟨hmap, PF.dayIterate_pairwise s e, ?_, ?_, rfl⟩
  · intro h
    rw [hlen, PF.dayIterate_length, if_pos h]
  · intro he
    have h : s ≤ e := by omega
    rw [hlen, PF.dayIterate_length, if_pos h]
    have h4 : e - s = 4 * 86400 := by omega
    rw [h4, Int.fdiv_eq_ediv _ (by norm_num)]
    rfl

theorem c2_one_row_per_day_counterexample :
    (PF.extractTrainingData trainDb 0 345600 none).length = 5 ∧
    ((345600 - 0 : Int).fdiv 86400).toNat = 4 ∧
    ¬((PF.extractTrainingData trainDb 0 345600 none).length ≤
        ((345600 - 0 : Int).fdiv 86400).toNat) := by
  have hD : PF.dayIterate 0 345600 = [0, 86400, 172800, 259200, 345600] := by
    rw [PF.dayIterate_of_le (by norm_num), PF.dayIterate_of_le (by norm_num),
      PF.dayIterate_of_le (by norm_num), PF.dayIterate_of_le (by norm_num),
      PF.dayIterate_of_le (by norm_num), PF.dayIterate_of_gt (by norm_num)]
    norm_num
  have hlen : (PF.extractTrainingData trainDb 0 345600 none).length = 5 := by
    unfold PF.extractTrainingData PF.perUserTrainingRows
    rw [hD]
    decide
  exact ⟨hlen, by decide, by rw [hlen]; decide⟩

theorem c2_one_row_per_day_witness :
    getUserInfo trainDb 1 = some exUser ∧
    PF.calculateTotalSpent (getUserEvents trainDb 1) = some 0 ∧
    (PF.perUserTrainingRows trainDb 1 0 345600).length = 5 := by
  have hu : getUserInfo trainDb 1 = some exUser := by decide
  have ht : PF.calculateTotalSpent (getUserEvents trainDb 1) = some 0 := rfl
  exact ⟨hu, ht,
    (c2_one_row_per_day trainDb 1 0 345600 exUser 0 hu ht).2.2.2.1 (by norm_num)⟩

/-! ## Claim C1 -/

/-- C1 (amended): truncating the event list to `timestamp ≤ prediction_date`
leaves every window-filtered and prediction-date-only field of both
extractors unchanged (two-run equality for those fields); the claim's
two-run equality for the whole record fails, because the whole-history
fields (`total_events`, `total_spent`, `avg_order_value`, `peak_hour`,
`unique_days_active`, `total_purchases`, `days_since_last_purchase`, and the
churn extractor's whole-history statistics) read the untruncated list. -/
theorem c1_truncation_invariance (u : UserInfo) (es : List Event) (pd : Int)
    (r r2 : PF.PurchasePredictionFeatures) (c c2 : CF.ChurnPredictionFeatures)
    (h1 : PF.extractFromEvents u es pd = some r)
    (h2 : PF.extractFromEvents u (eventsNotAfter es pd) pd = some r2)
    (h3 : CF.extractFromEvents u es pd = some c)
    (h4 : CF.extractFromEvents u (eventsNotAfter es pd) pd = some c2) :
    (r2.user_id = r.user_id ∧
     r2.telegram_id = r.telegram_id ∧
     r2.days_since_registration = r.days_since_registration ∧
     r2.events_last_7_days = r.events_last_7_days ∧
     r2.events_last_14_days = r.events_last_14_days ∧
     r2.events_last_30_days = r.events_last_30_days ∧
     r2.unique_days_active_last_7_days = r.unique_days_active_last_7_days ∧
     r2.unique_days_active_last_14_days = r.unique_days_active_last_14_days ∧
     r2.unique_days_active_last_30_days = r.unique_days_active_last_30_days ∧
     r2.bot_commands_last_7_days = r.bot_commands_last_7_days ∧
     r2.bot_commands_last_14_days = r.bot_commands_last_14_days ∧
     r2.bot_commands_last_30_days = r.bot_commands_last_30_days ∧
     r2.messages_last_7_days = r.messages_last_7_days ∧
     r2.messages_last_14_days = r.messages_last_14_days ∧
     r2.messages_last_30_days = r.messages_last_30_days ∧
     r2.callback_queries_last_7_days = r.callback_queries_last_7_days ∧
     r2.callback_queries_last_14_days = r.callback_queries_last_14_days ∧
     r2.callback_queries_last_30_days = r.callback_queries_last_30_days ∧
     r2.product_views_last_7_days = r.product_views_last_7_days ∧
     r2.product_views_last_14_days = r.product_views_last_14_days ∧
     r2.product_views_last_30_days = r.product_views_last_30_days ∧
     r2.cart_additions_last_7_days = r.cart_additions_last_7_days ∧
     r2.cart_additions_last_14_days = r.cart_additions_last_14_days ∧
     r2.cart_additions_last_30_days = r.cart_additions_last_30_days ∧
     r2.purchases_last_7_days = r.purchases_last_7_days ∧
     r2.purchases_last_14_days = r.purchases_last_14_days ∧
     r2.purchases_last_30_days = r.purchases_last_30_days ∧
     r2.purchases_last_60_days = r.purchases_last_60_days ∧
     r2.purchases_last_90_days = r.purchases_last_90_days ∧
     r2.avg_session_duration_last_7_days = r.avg_session_duration_last_7_days ∧
     r2.avg_session_duration_last_14_days = r.avg_session_duration_last_14_days ∧
     r2.weekend_activity_ratio_last_7_days = r.weekend_activity_ratio_last_7_days ∧
     r2.weekend_activity_ratio_last_14_days = r.weekend_activity_ratio_last_14_days ∧
     r2.activity_trend_7d_vs_14d = r.activity_trend_7d_vs_14d ∧
     r2.activity_trend_14d_vs_30d = r.activity_trend_14d_vs_30d ∧
     r2.purchase_trend_30d_vs_60d = r.purchase_trend_30d_vs_60d ∧
     r2.is_weekend = r.is_weekend ∧
     r2.hour_of_day = r.hour_of_day ∧
     r2.day_of_week = r.day_of_week ∧
     r2.month = r.month ∧
     r2.feature_extraction_date = r.feature_extraction_date ∧
     r2.prediction_horizon_days = r.prediction_horizon_days) ∧
    (c2.user_id = c.user_id ∧
     c2.telegram_id = c.telegram_id ∧
     c2.days_since_registration = c.days_since_registration ∧
     c2.events_last_7_days = c.events_last_7_days ∧
     c2.events_last_14_days = c.events_last_14_days ∧
     c2.events_last_30_days = c.events_last_30_days ∧
     c2.events_last_60_days = c.events_last_60_days ∧
     c2.unique_days_active_last_7_days = c.unique_days_active_last_7_days ∧
     c2.unique_days_active_last_14_days = c.unique_days_active_last_14_days ∧
     c2.unique_days_active_last_30_days = c.unique_days_active_last_30_days ∧
     c2.unique_days_active_last_60_days = c.unique_days_active_last_60_days ∧
     c2.activity_drop_7d_vs_14d = c.activity_drop_7d_vs_14d ∧
     c2.activity_drop_14d_vs_30d = c.activity_drop_14d_vs_30d ∧
     c2.activity_drop_30d_vs_60d = c.activity_drop_30d_vs_60d ∧
     c2.bot_commands_last_7_days = c.bot_commands_last_7_days ∧
     c2.bot_commands_last_14_days = c.bot_commands_last_14_days ∧
     c2.bot_commands_last_30_days = c.bot_commands_last_30_days ∧
     c2.messages_last_7_days = c.messages_last_7_days ∧
     c2.messages_last_14_days = c.messages_last_14_days ∧
     c2.messages_last_30_days = c.messages_last_30_days ∧
     c2.callback_queries_last_7_days = c.callback_queries_last_7_days ∧
     c2.callback_queries_last_14_days = c.callback_queries_last_14_days ∧
     c2.callback_queries_last_30_days = c.callback_queries_last_30_days ∧
     c2.product_views_last_7_days = c.product_views_last_7_days ∧
     c2.product_views_last_14_days = c.product_views_last_14_days ∧
     c2.product_views_last_30_days = c.product_views_last_30_days ∧
     c2.cart_additions_last_7_days = c.cart_additions_last_7_days ∧
     c2.cart_additions_last_14_days = c.cart_additions_last_14_days ∧
     c2.cart_additions_last_30_days = c.cart_additions_last_30_days ∧
     c2.purchases_last_7_days = c.purchases_last_7_days ∧
     c2.purchases_last_14_days = c.purchases_last_14_days ∧
     c2.purchases_last_30_days = c.purchases_last_30_days ∧
     c2.purchases_last_60_days = c.purchases_last_60_days ∧
     c2.avg_session_duration_last_7_days = c.avg_session_duration_last_7_days ∧
     c2.avg_session_duration_last_14_days = c.avg_session_duration_last_14_days ∧
     c2.avg_session_duration_last_30_days = c.avg_session_duration_last_30_days ∧
     c2.session_count_last_7_days = c.session_count_last_7_days ∧
     c2.session_count_last_14_days = c.session_count_last_14_days ∧
     c2.session_count_last_30_days = c.session_count_last_30_days ∧
     c2.session_duration_trend = c.session_duration_trend ∧
     c2.engagement_trend = c.engagement_trend ∧
     c2.purchase_trend = c.purchase_trend ∧
     c2.feature_extraction_date = c.feature_extraction_date ∧
     c2.churn_definition_days = c.churn_definition_days) := by
  obtain ⟨q1, q2, _, _, hr⟩ := PF.extract_some_eq_purchase h1
  obtain ⟨p1, p2, _, _, hr2⟩ := PF.extract_some_eq_purchase h2
  obtain ⟨a1, a2, a3, _, _, _, hc⟩ := CF.extract_some_eq_churn h3
  obtain ⟨b1, b2, b3, _, _, _, hc2⟩ := CF.extract_some_eq_churn h4
  subst hr hr2 hc hc2
  refine ⟨?_, ?_⟩ <;>
    simp only [PF.countEventsInWindow_eventsNotAfter_purchase,
      PF.countUniqueDaysInWindow_eventsNotAfter_purchase,
      PF.countEventsByTypeInWindow_eventsNotAfter_purchase,
      PF.avgSessionDuration_eventsNotAfter_purchase, PF.weekendRatio_eventsNotAfter,
      PF.activityTrend_eventsNotAfter, PF.purchaseTrend_eventsNotAfter_purchase,
      CF.countEventsInWindow_eventsNotAfter_churn,
      CF.countUniqueDaysInWindow_eventsNotAfter_churn,
      CF.countEventsByTypeInWindow_eventsNotAfter_churn,
      CF.activityDrop_eventsNotAfter, CF.avgSessionDuration_eventsNotAfter_churn,
      CF.countSessionsInWindow_eventsNotAfter,
      CF.sessionDurationTrend_eventsNotAfter, CF.engagementTrend_eventsNotAfter,
      CF.purchaseTrend_eventsNotAfter_churn] <;>
    simp

theorem c1_truncation_invariance_counterexample :
    (PF.extractFromEvents exUser c1Events c1Pd).map
      (fun r => r.total_events) = some 1 ∧
    (PF.extractFromEvents exUser (eventsNotAfter c1Events c1Pd) c1Pd).map
      (fun r => r.total_events) = some 0 ∧
    PF.extractFromEvents exUser c1Events c1Pd ≠
      PF.extractFromEvents exUser (eventsNotAfter c1Events c1Pd) c1Pd ∧
    (CF.extractFromEvents exUser c1Events c1Pd).map
      (fun c => c.total_events) = some 1 ∧
    (CF.extractFromEvents exUser (eventsNotAfter c1Events c1Pd) c1Pd).map
      (fun c => c.total_events) = some 0 ∧
    CF.extractFromEvents exUser c1Events c1Pd ≠
      CF.extractFromEvents exUser (eventsNotAfter c1Events c1Pd) c1Pd := by
  refine ⟨rfl, rfl, fun h => ?_, rfl, rfl, fun h => ?_⟩
  · have h2 := congrArg (Option.map
      (fun r : PF.PurchasePredictionFeatures => r.total_events)) h
    have ha : (PF.extractFromEvents exUser c1Events c1Pd).map
      (fun r => r.total_events) = some 1 := rfl
    have hb : (PF.extractFromEvents exUser (eventsNotAfter c1Events c1Pd) c1Pd).map
      (fun r => r.total_events) = some 0 := rfl
    rw [ha, hb] at h2
    exact absurd h2 (by decide)
  · have h2 := congrArg (Option.map
      (fun c : CF.ChurnPredictionFeatures => c.total_events)) h
    have ha : (CF.extractFromEvents exUser c1Events c1Pd).map
      (fun c => c.total_events) = some 1 := rfl
    have hb : (CF.extractFromEvents exUser (eventsNotAfter c1Events c1Pd) c1Pd).map
      (fun c => c.total_events) = some 0 := rfl
    rw [ha, hb] at h2
    exact absurd h2 (by decide)

theorem c1_truncation_invariance_witness :
    (PF.extractFromEvents exUser chainEvents 86400).map
        (fun r => r.events_last_7_days) = some 3 ∧
    ((PF.extractFromEvents exUser (eventsNotAfter chainEvents 86400) 86400).get
        (by rfl)).events_last_7_days =
      ((PF.extractFromEvents exUser chainEvents 86400).get
        (by rfl)).events_last_7_days := by
  have hS1 : (PF.extractFromEvents exUser chainEvents 86400).isSome = true := rfl
  have hS2 : (PF.extractFromEvents exUser (eventsNotAfter chainEvents 86400)
      86400).isSome = true := rfl
  have hS3 : (CF.extractFromEvents exUser chainEvents 86400).isSome = true := rfl
  have hS4 : (CF.extractFromEvents exUser (eventsNotAfter chainEvents 86400)
      86400).isSome = true := rfl
  refine ⟨rfl, ?_⟩
  exact (c1_truncation_invariance exUser chainEvents 86400 _ _ _ _
    (Option.some_get hS1).symm (Option.some_get hS2).symm
    (Option.some_get hS3).symm (Option.some_get hS4).symm).1.2.2.2.1

end CustomerAnalyzer
